import Mathlib

/-!
Shallow embedding, in Lean 4, of the windowed batching engine and the
sentiment-scoring/caching/recovery pipeline of the `thima-tg-bot-v1`
repository (TypeScript).  Each definition is translated from the source
file named in its doc comment.  JavaScript numbers are modelled as `ℚ`
where the code only performs field operations and comparisons, and as `ℝ`
where the code takes square roots or fractional powers; machine time
(`Date.now()`) is passed explicitly as a parameter.
-/

/-! ### JavaScript string primitives

The string operations used by the source (`toLowerCase`, `toUpperCase`,
`includes`, `split`, counting regex matches) are modelled over `List Char`.
Case conversion is modelled on the ASCII range (the inputs appearing in the
theorems below are ASCII; the source relies on JavaScript's Unicode-aware
`toLowerCase`/`toUpperCase`, which agrees with the ASCII table there). -/

/-- Model of JavaScript `String.prototype.toLowerCase` (ASCII range). -/
def jsToLower (s : String) : String :=
  ⟨s.data.map Char.toLower⟩

/-- Model of JavaScript `String.prototype.toUpperCase` (ASCII range). -/
def jsToUpper (s : String) : String :=
  ⟨s.data.map Char.toUpper⟩

/-- `listStartsWith pat l` holds when `pat` is an initial segment of `l`. -/
def listStartsWith : List Char → List Char → Bool
  | [], _ => true
  | _ :: _, [] => false
  | a :: as, b :: bs => a == b && listStartsWith as bs

/-- `listContainsSeg pat l` : does `l` contain `pat` as a contiguous segment?
Model of JavaScript `String.prototype.includes` (over char lists). -/
def listContainsSeg (pat : List Char) : List Char → Bool
  | [] => pat.isEmpty
  | c :: rest => listStartsWith pat (c :: rest) || listContainsSeg pat rest

/-- Model of JavaScript `haystack.includes(needle)`. -/
def strIncludes (haystack needle : String) : Bool :=
  listContainsSeg needle.data haystack.data

/-- Number of occurrences of the character `c` in `s` (models counting the
matches of a single-character global regex such as `/!/g`). -/
def countChar (c : Char) (s : String) : Nat :=
  (s.data.filter (· == c)).length

/-- Does `s` contain some character repeated at least four times in a row?
Model of the regex test `/(.)\1{3,}/.test(s)`. -/
def hasRun4 : List Char → Bool
  | a :: b :: c :: d :: rest =>
      (a == b && b == c && c == d) || hasRun4 (b :: c :: d :: rest)
  | _ => false

/-- First pattern of `pats` (given as char lists) matching at the head of
`l`, returned with its length.  Models a JavaScript regex alternation
trying the alternatives left to right at one position. -/
def findAltMatch (pats : List (List Char)) (l : List Char) : Option Nat :=
  match pats with
  | [] => none
  | p :: rest => if ¬p.isEmpty ∧ listStartsWith p l then some p.length
                 else findAltMatch rest l

/-- Scanner for `countAltList`, structurally recursive on a fuel bound of
the remaining length (each step consumes at least one character, so the
fuel `l.length` supplied by `countAltList` never runs out). -/
def countAltFuel (pats : List (List Char)) : Nat → List Char → Nat
  | 0, _ => 0
  | _ + 1, [] => 0
  | fuel + 1, c :: rest =>
    match findAltMatch pats (c :: rest) with
    | some n => 1 + countAltFuel pats fuel (List.drop (n - 1) rest)
    | none => countAltFuel pats fuel rest

/-- Number of non-overlapping, left-to-right matches of the alternation
`pats` in `l`: models `(s.match(/p1|p2|…/g) || []).length`. -/
def countAltList (pats : List (List Char)) (l : List Char) : Nat :=
  countAltFuel pats l.length l

/-- Number of matches of the global single-pattern regex `pat` in `s`. -/
def countOccur (pat : String) (s : String) : Nat :=
  countAltList [pat.data] s.data

/-- `strMatchesAlt pats s` : does `s` contain a match of the alternation
`pats`?  Models `s.match(/p1|p2/u)` / `regex.test(s)` being truthy. -/
def strMatchesAlt (pats : List String) (s : String) : Bool :=
  decide (0 < countAltList (pats.map String.data) s.data)

/-- `strContainsAnyChar cls s` : does `s` contain any character of the
string `cls`?  Models a regex character-class test such as `/[abc]/u.test(s)`. -/
def strContainsAnyChar (cls : String) (s : String) : Bool :=
  s.data.any (fun c => cls.data.contains c)

/-- Split a character list at every occurrence of `sep` (the separator is
consumed; empty segments are kept, like JavaScript `split`). -/
def splitChars (sep : Char) : List Char → List (List Char)
  | [] => [[]]
  | c :: rest =>
    if c = sep then [] :: splitChars sep rest
    else
      match splitChars sep rest with
      | [] => [[c]]
      | seg :: segs => (c :: seg) :: segs

/-- Model of JavaScript `s.split(sep)` for a single-character separator
(as used by `text.split(' ')` and `text.split('!')` in the source). -/
def jsSplit (s : String) (sep : Char) : List String :=
  (splitChars sep s.data).map (fun cs => ⟨cs⟩)

/-! ### Message Window Manager

Translation of `src/agent/src/services/sentiment/message-window.ts`.
`Date.now()` becomes an explicit `now : Nat` parameter (epoch milliseconds);
the manager's `activeWindows : Map<string, MessageWindow>` becomes an
insertion-ordered association list whose `set` keeps the original position
of an overwritten key, exactly like a JavaScript `Map`. -/

inductive WindowStatus
  | collecting
  | processing
  | completed
deriving DecidableEq, Repr

structure WindowMessage where
  text : String
  timestamp : Nat
  userId : String
deriving DecidableEq, Repr

structure MessageWindow where
  windowId : String
  startTime : Nat
  endTime : Nat
  chatId : String
  messages : List WindowMessage
  status : WindowStatus
deriving DecidableEq, Repr

structure MessageInput where
  text : String
  userId : String
  chatId : String
  timestamp : Option Nat
deriving DecidableEq, Repr

namespace MessageWindowManager

def WINDOW_SIZE_MS : Nat := 30000

def MIN_MESSAGES : Nat := 2

def MAX_MESSAGES : Nat := 5

/-- The manager state: the `activeWindows` map as an insertion-ordered list. -/
abbrev WindowMap := List MessageWindow

/-- `Map.get`: first (and, along reachable states, only) window with this id. -/
def mapGet (st : WindowMap) (id : String) : Option MessageWindow :=
  st.find? (fun w => w.windowId == id)

/-- `Map.set`: overwrite in place when the key exists, else append. -/
def mapSet (st : WindowMap) (w : MessageWindow) : WindowMap :=
  if st.any (fun x => x.windowId == w.windowId) then
    st.map (fun x => if x.windowId == w.windowId then w else x)
  else
    st ++ [w]

/-- `getWindowId(chatId, timestamp)`:
`chatId + '_' + (timestamp - timestamp % WINDOW_SIZE_MS)`. -/
def getWindowId (chatId : String) (timestamp : Nat) : String :=
  chatId ++ "_" ++ toString (timestamp - timestamp % WINDOW_SIZE_MS)

/-- `addMessage(message)` at wall-clock time `now`; returns the updated
state together with the window the source returns. -/
def addMessage (st : WindowMap) (message : MessageInput) (now : Nat) :
    WindowMap × MessageWindow :=
  let windowId := getWindowId message.chatId now
  let window :=
    match mapGet st windowId with
    | some w => w
    | none =>
        { windowId := windowId
          startTime := now
          endTime := now + WINDOW_SIZE_MS
          chatId := message.chatId
          messages := []
          status := .collecting }
  let st := mapSet st window
  if window.status = .collecting then
    let window' := { window with
      messages := window.messages ++
        [{ text := message.text
           timestamp := message.timestamp.getD now
           userId := message.userId }] }
    (mapSet st window', window')
  else
    let newWindow : MessageWindow :=
      { windowId := windowId ++ "_overflow"
        startTime := now
        endTime := now + WINDOW_SIZE_MS
        chatId := message.chatId
        messages := [{ text := message.text
                       timestamp := message.timestamp.getD now
                       userId := message.userId }]
        status := .collecting }
    (mapSet st newWindow, newWindow)

/-- The readiness condition of `getReadyWindows` for one window at time
`now`: `(isTimeUp && hasMinMessages) || hasMaxMessages`. -/
def windowReady (w : MessageWindow) (now : Nat) : Prop :=
  (now ≥ w.endTime ∧ w.messages.length ≥ MIN_MESSAGES) ∨
    w.messages.length ≥ MAX_MESSAGES

instance (w : MessageWindow) (now : Nat) : Decidable (windowReady w now) := by
  unfold windowReady; infer_instance

/-- `getReadyWindows()` at time `now`: every `collecting` window meeting the
readiness condition is marked `processing` and returned, in map order.
Returns (updated state, ready windows). -/
def getReadyWindows (st : WindowMap) (now : Nat) : WindowMap × List MessageWindow :=
  let upd : MessageWindow → MessageWindow := fun w =>
    if w.status = .collecting ∧ windowReady w now then
      { w with status := .processing }
    else w
  (st.map upd,
   (st.filter (fun w => decide (w.status = .collecting ∧ windowReady w now))).map upd)

/-- `markWindowComplete(windowId)`. -/
def markWindowComplete (st : WindowMap) (windowId : String) : WindowMap :=
  match mapGet st windowId with
  | some w => mapSet st { w with status := .completed }
  | none => st

/-- `cleanup()` at time `now`: drop `completed` windows and windows older
than twice the window duration. -/
def cleanupWindows (st : WindowMap) (now : Nat) : WindowMap :=
  st.filter (fun w =>
    ¬(w.status = .completed ∨ now - w.startTime > WINDOW_SIZE_MS * 2))

/-- A message text is present in some managed window of the state. -/
def textPresent (st : WindowMap) (t : String) : Prop :=
  ∃ w ∈ st, ∃ m ∈ w.messages, m.text = t

instance (st : WindowMap) (t : String) : Decidable (textPresent st t) := by
  unfold textPresent; infer_instance

end MessageWindowManager

/-! ### Sentiment data model

Translation of the interfaces of `src/unnamed/part_002`
(`sentiment.service.ts`).  Scores and confidences are modelled as `ℝ`
(the scoring pipeline applies `Math.sqrt` and fractional `Math.pow`);
quantities produced by purely rational arithmetic (the emphasis
multipliers, anchor weights) are computed in `ℚ` and coerced. -/

inductive SentimentCategory
  | strongly_bearish
  | mildly_bearish
  | neutral
  | mildly_bullish
  | strongly_bullish
deriving DecidableEq, Repr

structure SentimentScore where
  score : ℝ
  category : SentimentCategory
  confidence : ℝ

structure AnalysisContext where
  recentTrend : ℝ
  volatility : ℝ
  dominantCategory : SentimentCategory

structure SentimentAnalysisResult where
  score : SentimentScore
  context : AnalysisContext

/-- One match of `VectorQueryResult.matches`; of its `metadata` only the
`category` field is ever read (`getDominantCategory`).  The field `matches`
is a reserved word in Lean, so it is rendered as `matchList`. -/
structure VectorMatch where
  id : String
  score : ℝ
  category : Option SentimentCategory

structure VectorQueryResult where
  matchList : List VectorMatch

/-- The `bullish` list of `SentimentAnalysisService.SENTIMENT_ANCHORS`
(`src/unnamed/part_002`), transcribed verbatim (including the emoji byte
sequences exactly as they appear in the source file). -/
def SENTIMENT_ANCHORS_bullish : List String :=
  ["amazing", "excellent", "fantastic", "wonderful", "brilliant", "great", "web4", 
   "trillion dollar vertical", "next paradigm", "revolutionary", "future of AI", 
   "AI evolution", "digital autonomy", "self sovereign", "inori network", 
   "CRPC protocol", "byzantine risk tolerance", "decentralized computation", "AI swarms", 
   "autonomous agents", "community takeover", "a16z backing", "scrypted alignment", 
   "holder growth", "adoption", "institutional interest", "undervalued", "early", 
   "growth potential", "accumulate", "next ethereum", "next bitcoin", 
   "blue chip potential", "digital life", "AI consciousness", "autonomous future", 
   "self ownership", "digital rights", "AI autonomy", "wagmi", "lfg", "gm", "bullish af", 
   "based", "frfr", "no cap", "üöÄ", "üíé", "ü§ñ", "üß†", "üí™", "üî•", "üíØ", 
   "‚≠ê", "üåô", "üéØ", "community strong", "diamond hands only", "real ones know", 
   "tim delivers", "chad is evolving", "imagine being bearish", "early af", 
   "ngmi if no avb", "generational wealth", "community > everything", "avb family", 
   "day 1 believers", "tim called it", "scrypted bullish", "inori incoming", 
   "look at the vision", "compare the mcap", "institutional soon", "fud destroyed", 
   "bears in shambles", "stay humble stack avb", "tim working while you sleeping", 
   "chad getting smarter", "paper hands shaken out", "real builders build", 
   "trust the process", "ü´°", "ü§ù", "üí™", "ÔøΩÔøΩ", "üëë", "‚öîÔ∏è", "üõ°Ô∏è", 
   "fuck yeah", "fucking yeah", "fuck yes", "fucking yes", "fucking amazing", 
   "fucking bullish", "fucking moon", "fucking based", "fucking chad", "fucking genius", 
   "price action great", "fucking great", "price action is great", 
   "price action is fucking great", "great price action", "amazing price action", "moon", 
   "lets moon", "MOON", "LETS MOON", "pump it", "PUMP IT", "LFG"]

/-- The `bearish` list of `SentimentAnalysisService.SENTIMENT_ANCHORS`
(`src/unnamed/part_002`), transcribed verbatim (including the emoji byte
sequences exactly as they appear in the source file). -/
def SENTIMENT_ANCHORS_bearish : List String :=
  ["terrible", "horrible", "awful", "dreadful", "disappointing", "centralized", 
   "not scalable", "technical issues", "bugs", "security risks", "network problems", 
   "implementation issues", "overvalued", "bubble", "hype", "memecoin", "no utility", 
   "dump", "sell pressure", "price manipulation", "whale games", "vaporware", 
   "abandoned", "no development", "lost autonomy", "failed experiment", 
   "broken promises", "missed deadlines", "better alternatives", "competition", 
   "market saturation", "obsolete technology", "outdated approach", "rug pull", "scam", 
   "fake", "ponzi", "cash grab", "opportunistic launch", "quick flip", "ngmi", "rekt", 
   "paper hands", "fud", "cope", "üíÄ", "üè≥Ô∏è", "‚ö∞Ô∏è", "ü§°", "üóëÔ∏è", "üìâ", 
   "‚ö†Ô∏è", "weak hands", "ngmi energy", "fudders coping", "missing the vision", 
   "paper hand mindset", "short term thinking", "lacks research", "casual take", 
   "watching from sidelines", "crying later", "zoom out ser", "do more research", 
   "read the docs", "check the github", "watch the spaces", "follow tim", 
   "compare other ai tokens", "look at fundamentals", "blows", "ass", "sodl", 
   "boring af", "dead", "trash", "fuck avb", "fucking avb", "fucking sucks", 
   "fucking trash", "fucking dead", "fucking shit", "fucking ass", "fucking garbage", 
   "fucking joke", "fucking scam"]

/-- The `neutral` list of `SentimentAnalysisService.SENTIMENT_ANCHORS`
(`src/unnamed/part_002`), transcribed verbatim (including the emoji byte
sequences exactly as they appear in the source file). -/
def SENTIMENT_ANCHORS_neutral : List String :=
  ["okay", "fine", "average", "moderate", "standard", "development update", 
   "technical analysis", "implementation", "protocol design", "network architecture", 
   "roadmap", "market cap", "volume", "liquidity", "price action", "trading range", 
   "support levels", "resistance", "progress report", "milestone update", 
   "development phase", "testing phase", "integration process", "protocol update", 
   "research", "analysis", "investigation", "comparison", "documentation", "whitepaper", 
   "technical spec", "dyor", "nfa", "smart contract", "blockchain", "algorithm", "ü§î", 
   "‚öñÔ∏è", "üìä", "üîÑ", "‚è≥", "üìù", "üîç", "üéØ", "dyor required", 
   "check pinned", "join telegram", "watch latest space", "tim explained this", 
   "community knows", "day 1s understand"]

namespace SentimentAnalysisService

/-- `THRESHOLDS` of `SentimentAnalysisService`. -/
def stronglyBearish : ℚ := -3/10

def mildlyBearish : ℚ := -15/100

def neutralThreshold : ℚ := 15/100

def mildlyBullish : ℚ := 3/10

/-- `getCategory(score)`: map the final score to one of the five bins via
the fixed `THRESHOLDS`. -/
noncomputable def getCategory (score : ℝ) : SentimentCategory :=
  if score ≤ (stronglyBearish : ℝ) then .strongly_bearish
  else if score ≤ (mildlyBearish : ℝ) then .mildly_bearish
  else if score ≤ (neutralThreshold : ℝ) then .neutral
  else if score ≤ (mildlyBullish : ℝ) then .mildly_bullish
  else .strongly_bullish

/-- `calculateConfidence(score) = Math.min(Math.abs(score), 1)`. -/
noncomputable def calculateConfidence (score : ℝ) : ℝ :=
  min |score| 1

/-- One element of the `bullishMatches`/`bearishMatches` arrays built in
`calculateSentimentScore`: `{word, weight, matches}`. -/
structure AnchorMatch where
  word : String
  weight : ℚ
  matched : Bool
deriving DecidableEq, Repr

/-- The matched-and-filtered anchor list of `calculateSentimentScore`:
weight `1.5` for words longer than 6 characters, else `1.0`; a word matches
when the case-folded text contains it as a substring. -/
def anchorMatches (anchors : List String) (lowerText : String) : List AnchorMatch :=
  (anchors.map (fun word =>
    { word := word
      weight := if word.length > 6 then 3/2 else 1
      matched := strIncludes lowerText (jsToLower word) : AnchorMatch })).filter
    (fun m => m.matched)

/-- Sum of the weights of a matched-anchor list (the
`reduce((sum, m) => sum + m.weight, 0)` of the source). -/
def weightSum (ms : List AnchorMatch) : ℚ :=
  ms.foldl (fun sum m => sum + m.weight) 0

/-- `calculateEmphasisMultiplier(text)` of `sentiment.service.ts`: compounds
emoji intensity, ALL-CAPS words, repeated characters and exclamation marks
multiplicatively.  All factors are rational, so the result is computed in
`ℚ`.  The emoji patterns are transcribed byte-for-byte from the source
file. -/
def calculateEmphasisMultiplier (text : String) : ℚ :=
  let multiplier : ℚ := 1
  let rocketCount := countOccur "üöÄ" text
  let multiplier := if rocketCount ≥ 3 then multiplier * (5/2)
    else if rocketCount > 0 then multiplier * (3/2) else multiplier
  let multiplier := if strMatchesAlt ["üíé", "üôå"] text then multiplier * 2 else multiplier
  let multiplier := if countAltList (["üî•", "üíØ", "‚≠ê"].map String.data) text.data ≥ 2 then
      multiplier * 2 else multiplier
  let multiplier := if strMatchesAlt ["üíÄ", "‚ö∞Ô∏è", "ü§°", "üìâ"] text then
      multiplier * (9/5) else multiplier
  let capsWords := (jsSplit text ' ').filter
    (fun word => word.length > 2 && word == jsToUpper word)
  let multiplier := if capsWords.length ≥ 2 then multiplier * 2
    else if capsWords.length = 1 then multiplier * (3/2) else multiplier
  let multiplier := if hasRun4 text.data then multiplier * (3/2) else multiplier
  let exclamationCount := countChar '!' text
  let multiplier := if exclamationCount ≥ 3 then multiplier * (9/5)
    else if exclamationCount > 0 then multiplier * (13/10) else multiplier
  let multiplier := if capsWords.length ≥ 2 ∧ exclamationCount ≥ 3 then
      multiplier * (3/2) else multiplier
  multiplier

/-- `calculateSentimentScore(text, embedding)` of `sentiment.service.ts`.
The embedding parameter is unused by the source body (the algorithm is
purely lexical); the `try/catch` wrapper is dropped since the model is
total.  `Math.pow(x, 0.7)` on the non-negative `x = |score * multiplier|`
is real exponentiation. -/
noncomputable def calculateSentimentScore (text : String) (_embedding : List ℝ) : ℝ :=
  let lowerText := jsToLower text
  let bullishMatches := anchorMatches SENTIMENT_ANCHORS_bullish lowerText
  let bearishMatches := anchorMatches SENTIMENT_ANCHORS_bearish lowerText
  let score : ℝ :=
    if bullishMatches.length > 0 ∨ bearishMatches.length > 0 then
      let bullishScore := weightSum bullishMatches
      let bearishScore := weightSum bearishMatches
      let score : ℝ :=
        ((bullishScore - bearishScore : ℚ) : ℝ) /
          max ((bullishScore + bearishScore : ℚ) : ℝ) 1
      Real.sign score * Real.sqrt |score|
    else 0
  let hasExclamation := strIncludes text "!"
  let isAllCaps := text = jsToUpper text ∧ text.length > 3
  let hasPositiveEmojis := strContainsAnyChar "üöÄüíéüî•üí™" text
  let hasNegativeEmojis := strContainsAnyChar "üíÄ‚ö∞Ô∏èü§°üìâ" text
  let multiplier : ℚ := 1
  let multiplier := if hasExclamation then multiplier * (3/2) else multiplier
  let multiplier := if isAllCaps then multiplier * 2 else multiplier
  let multiplier := if hasPositiveEmojis then multiplier * (3/2) else multiplier
  let multiplier := if hasNegativeEmojis then multiplier * (3/2) else multiplier
  let multiplier := if (jsSplit text '!').length > 2 then multiplier * (3/2) else multiplier
  let multiplier := if hasExclamation = true ∧ isAllCaps then multiplier * (3/2) else multiplier
  let multiplier := if ["amazing", "incredible", "excellent"].any
      (fun word => strIncludes lowerText word) then multiplier * (3/2) else multiplier
  let multiplier := if ["terrible", "awful", "horrible"].any
      (fun word => strIncludes lowerText word) then multiplier * (3/2) else multiplier
  let score : ℝ :=
    if score = 0 then
      let score : ℝ := if isAllCaps then 3/10 else 0
      let score := if hasExclamation then score + 2/10 else score
      let score := if hasPositiveEmojis then score + 3/10 else score
      let score := if hasNegativeEmojis then (-3/10 : ℝ) else score
      score
    else score
  let score := Real.sign score * |score * (multiplier : ℝ)| ^ (0.7 : ℝ)
  min 1 (max (-1) score)

/-- The `analyze` member of `getDefaultStrategy()`: score via
`calculateSentimentScore`, category via `getCategory`, confidence as
`calculateEmphasisMultiplier(message) * calculateConfidence(score)`. -/
noncomputable def defaultStrategyAnalyze (message : String) (embedding : List ℝ) :
    SentimentScore :=
  let score := calculateSentimentScore message embedding
  { score := score
    category := getCategory score
    confidence := (calculateEmphasisMultiplier message : ℝ) * calculateConfidence score }

/-- `calculateVolatility(scores)`: cubic amplification of consecutive
absolute differences, exponential recency weights of base 4, average,
amplify by 8, clamp to `[0, 1]` from above via `Math.min`. -/
noncomputable def calculateVolatility (scores : List ℝ) : ℝ :=
  if scores.length < 2 then 0 else
  let differences := List.zipWith (fun next prev => |next - prev|) scores.tail scores
  let amplifiedDiffs := differences.map (fun diff => diff ^ (3 : ℕ))
  let weightedDiffs := List.zipWith
    (fun diff (i : ℕ) => diff * (4 : ℝ) ^ ((i : ℝ) / (amplifiedDiffs.length : ℝ)))
    amplifiedDiffs (List.range amplifiedDiffs.length)
  let volatility := weightedDiffs.sum / (weightedDiffs.length : ℝ)
  min 1 (volatility * 8)

/-- `calculateTrend(scores)`: signed squared consecutive changes,
exponential recency weights of base 3, average, amplify by 6, clamp to
`[-1, 1]`. -/
noncomputable def calculateTrend (scores : List ℝ) : ℝ :=
  if scores.length < 2 then 0 else
  let changes := List.zipWith (fun next prev => next - prev) scores.tail scores
  let amplifiedChanges := changes.map (fun change => |change| ^ (2 : ℕ) * Real.sign change)
  let weightedChanges := List.zipWith
    (fun change (i : ℕ) => change * (3 : ℝ) ^ ((i : ℝ) / (changes.length : ℝ)))
    amplifiedChanges (List.range amplifiedChanges.length)
  let trend := weightedChanges.sum / (weightedChanges.length : ℝ)
  min 1 (max (-1) (trend * 6))

/-- The category-frequency record built by `getDominantCategory`'s
`reduce` (a JavaScript object whose keys enumerate in first-insertion
order), as an ordered association list. -/
def categoryCounts (cats : List SentimentCategory) : List (SentimentCategory × Nat) :=
  cats.foldl
    (fun acc c =>
      if acc.any (fun p => p.1 = c) then
        acc.map (fun p => if p.1 = c then (p.1, p.2 + 1) else p)
      else acc ++ [(c, 1)])
    []

/-- `getDominantCategory(matches, defaultCategory)`: majority vote over the
`category` metadata of the similarity matches (ties broken by the
`a[1] > b[1] ? a : b` reduce, which keeps the earlier entry), falling back
to the current message's own category when no neighbour has one. -/
def getDominantCategory (ms : List VectorMatch) (defaultCategory : SentimentCategory) :
    SentimentCategory :=
  let categories := ms.filterMap (fun m => m.category)
  if categories.length = 0 then defaultCategory
  else
    match categoryCounts categories with
    | [] => defaultCategory
    | e :: es => (es.foldl (fun a b => if a.2 > b.2 then a else b) e).1

end SentimentAnalysisService

/-! ### Content-addressed sentiment cache

Translation of `src/agent/src/services/sentiment/sentiment-cache.service.ts`
against the production schema created by `initializeDatabase()` in
`src/agent/src/index.ts` / `src/unnamed/part_005`:

```
CREATE TABLE sentiment_cache (
  messageHash TEXT PRIMARY KEY, embedding TEXT NOT NULL,
  sentiment TEXT NOT NULL, confidence REAL NOT NULL, context TEXT NOT NULL,
  userId TEXT NOT NULL, roomId TEXT NOT NULL,
  senderName TEXT NOT NULL DEFAULT 'Unknown',
  expiresAt INTEGER NOT NULL, createdAt INTEGER NOT NULL)
```

`cacheSentiment` binds `expiresAt = Date.now() + 24h` (a JavaScript
integer, stored with INTEGER affinity), while `getCachedSentiment` filters
with `expiresAt > datetime('now')`, comparing that INTEGER against the
TEXT value returned by `datetime('now')`.  SQLite's cross-type comparison
semantics are therefore part of the model: a value of numeric storage
class sorts strictly below every TEXT value. -/

/-- SQLite storage classes appearing in the `sentiment_cache` table. -/
inductive SqlVal
  | vNull
  | vInt (i : Int)
  | vReal (q : ℚ)
  | vText (s : String)
deriving DecidableEq, Repr

/-- SQLite storage-class rank: NULL < numeric (INTEGER/REAL) < TEXT. -/
def SqlVal.rank : SqlVal → Nat
  | .vNull => 0
  | .vInt _ => 1
  | .vReal _ => 1
  | .vText _ => 2

/-- Byte-lexicographic comparison of two strings (SQLite's BINARY
collation; the strings compared in the model are ASCII, where code-point
order and byte order agree). -/
def strLexLt : List Char → List Char → Bool
  | [], [] => false
  | [], _ :: _ => true
  | _ :: _, [] => false
  | a :: as, b :: bs => a < b || (a == b && strLexLt as bs)

/-- SQLite `<` between two non-NULL values: values of different storage
classes compare by class rank, numeric values numerically, TEXT values by
BINARY collation.  A comparison involving NULL is never true in a WHERE
clause (three-valued logic collapses to false), handled by `sqlGt`. -/
def SqlVal.lt : SqlVal → SqlVal → Bool
  | .vNull, _ => false
  | _, .vNull => false
  | .vInt a, .vInt b => a < b
  | .vInt a, .vReal b => (a : ℚ) < b
  | .vReal a, .vInt b => a < (b : ℚ)
  | .vReal a, .vReal b => a < b
  | .vText a, .vText b => strLexLt a.data b.data
  | a, b => a.rank < b.rank

/-- SQLite `a > b` as used in a WHERE clause (false when either side is
NULL). -/
def sqlGt (a b : SqlVal) : Bool :=
  match a, b with
  | .vNull, _ => false
  | _, .vNull => false
  | _, _ => SqlVal.lt b a

namespace SentimentCacheService

/-- A row of the production `sentiment_cache` table.  Column types follow
the declared affinities: `sentiment` and `embedding` are TEXT (the service
binds `score.toString()` / `JSON.stringify(...)`), `confidence` REAL,
`expiresAt`/`createdAt` INTEGER epoch milliseconds (NOT NULL). -/
structure CacheRow where
  messageHash : String
  embedding : String
  sentiment : String
  confidence : ℚ
  context : String
  userId : String
  roomId : String
  senderName : String
  expiresAt : Int
  createdAt : Int
deriving DecidableEq, Repr

/-- The table, in insertion order. -/
abbrev CacheTable := List CacheRow

/-- The data argument of `cacheSentiment` (everything but
`expiresAt`/`createdAt`, which the service fills in). -/
structure CacheData where
  messageHash : String
  embedding : String
  sentiment : String
  confidence : ℚ
  context : String
  userId : String
  roomId : String
  senderName : String
deriving DecidableEq, Repr

/-- `generateMessageHash` computes the SHA-256 hex digest of the message.
Modelled as an opaque deterministic tagging function: the service only
relies on the hash being a deterministic function of the text. -/
def generateMessageHash (message : String) : String :=
  "sha256_" ++ message

/-- `cacheSentiment(data)` at wall-clock time `nowMs` (epoch
milliseconds): inserts a row with `expiresAt = now + 24*60*60*1000` and
`createdAt = now`.  The TEXT PRIMARY KEY on `messageHash` makes the INSERT
throw on a duplicate hash, in which case the service rethrows. -/
def cacheSentiment (tbl : CacheTable) (data : CacheData) (nowMs : Int) :
    Except String CacheTable :=
  let entry : CacheRow :=
    { messageHash := data.messageHash
      embedding := data.embedding
      sentiment := data.sentiment
      confidence := data.confidence
      context := data.context
      userId := data.userId
      roomId := data.roomId
      senderName := data.senderName
      expiresAt := nowMs + 24 * 60 * 60 * 1000
      createdAt := nowMs }
  if tbl.any (fun r => r.messageHash == entry.messageHash) then
    .error "UNIQUE constraint failed: sentiment_cache.messageHash"
  else
    .ok (tbl ++ [entry])

/-- The WHERE clause of `getCachedSentiment`:
`messageHash = ? AND (expiresAt IS NULL OR expiresAt > datetime('now'))`,
evaluated on a row.  `nowDatetime` is the TEXT value `datetime('now')`
produced by SQLite (`"YYYY-MM-DD HH:MM:SS"` in UTC). -/
def rowMatches (messageHash : String) (nowDatetime : String) (r : CacheRow) : Bool :=
  r.messageHash == messageHash &&
    (false || sqlGt (SqlVal.vInt r.expiresAt) (SqlVal.vText nowDatetime))

/-- `getCachedSentiment(message)` at SQLite time `nowDatetime`: the first
row whose hash matches and which the expiry predicate accepts, or `none`
(the source maps an absent row — and any thrown error — to `null`). -/
def getCachedSentiment (tbl : CacheTable) (message : String) (nowDatetime : String) :
    Option CacheRow :=
  tbl.find? (rowMatches (generateMessageHash message) nowDatetime)

/-- `cleanup()`: `DELETE FROM sentiment_cache WHERE expiresAt <= datetime("now")`.
SQLite `a <= b` is again false on the cross-class comparison, so the model
keeps every row whose `expiresAt` is an INTEGER. -/
def cleanupCache (tbl : CacheTable) (nowDatetime : String) : CacheTable :=
  tbl.filter (fun r =>
    !(sqlGt (SqlVal.vText nowDatetime) (SqlVal.vInt r.expiresAt) ||
      SqlVal.vInt r.expiresAt == SqlVal.vText nowDatetime))

end SentimentCacheService

/-! ### Error taxonomy and recovery

Translation of `src/agent/src/services/sentiment/errors.ts` and the
`ErrorRecovery` class of `src/unnamed/part_001`.  A thrown JavaScript
value is either a typed `SentimentError` or a plain `Error`; an error's
`cause` chain is modelled by the causing error's message.  The recovery
executor's `await this.sleep(backoff)` calls are returned as a trace of
backoff durations; `Date.now()` is the explicit `now` parameter. -/

structure RetryOptions where
  maxAttempts : Nat
  backoffMs : Nat
deriving DecidableEq, Repr

/-- The `SentimentError` base class: code, severity, retryability and the
declared retry policy. -/
structure SentimentError where
  message : String
  code : String
  severity : String
  retryable : Bool
  retryOptions : Option RetryOptions
  cause : Option String
deriving DecidableEq, Repr

/-- `get shouldRetry(): this.retryable && !!this.retryOptions`. -/
def SentimentError.shouldRetry (e : SentimentError) : Bool :=
  e.retryable && e.retryOptions.isSome

/-- A thrown JavaScript value: one of the typed sentiment errors, or a
plain `Error`. -/
inductive JsError
  | sentiment (e : SentimentError)
  | plain (message : String)
deriving DecidableEq, Repr

def JsError.msg : JsError → String
  | .sentiment e => e.message
  | .plain m => m

def InitializationError (message : String) (cause : Option String) : SentimentError :=
  ⟨message, "INIT_ERROR", "HIGH", true, some ⟨3, 1000⟩, cause⟩

def EmbeddingError (message : String) (cause : Option String) : SentimentError :=
  ⟨message, "EMBEDDING_ERROR", "MEDIUM", true, some ⟨5, 500⟩, cause⟩

def VectorStoreError (message : String) (cause : Option String) : SentimentError :=
  ⟨message, "VECTOR_STORE_ERROR", "MEDIUM", true, some ⟨3, 1000⟩, cause⟩

def CacheError (message : String) (cause : Option String) : SentimentError :=
  ⟨message, "CACHE_ERROR", "LOW", true, some ⟨2, 200⟩, cause⟩

def AnalysisError (message : String) (cause : Option String) : SentimentError :=
  ⟨message, "ANALYSIS_ERROR", "MEDIUM", true, some ⟨3, 500⟩, cause⟩

def RateLimitError (message : String) (retryAfterMs : Nat) (cause : Option String) :
    SentimentError :=
  ⟨message, "RATE_LIMIT_ERROR", "LOW", true, some ⟨1, retryAfterMs⟩, cause⟩

/-- The `ErrorMetadata` record built by `ErrorRecovery.createErrorMetadata`
plus the optional fields the interface declares (`result`, `attempts`,
`finalError`), parametrised by the type of a recovered operation's result. -/
structure ErrorMetadata (α : Type) where
  timestamp : Int
  service : String
  operation : String
  status : String
  severity : String
  result : Option α
  attempts : Option Nat
  finalError : Option JsError

structure RecoveryResult (α : Type) where
  success : Bool
  error : Option JsError
  metadata : Option (ErrorMetadata α)

namespace ErrorRecovery

/-- `createErrorMetadata(error, status, additional)`.  The source spreads
`additional` into the record; the call sites only ever pass `attempts`
and `finalError`, so those are explicit arguments and `result` is always
absent (`none`). -/
def createErrorMetadata (α : Type) (service : String) (now : Int)
    (error : SentimentError) (status : String) (attempts : Option Nat)
    (finalError : Option JsError) : ErrorMetadata α :=
  { timestamp := now
    service := service
    operation := error.code
    status := status
    severity := error.severity
    result := none
    attempts := attempts
    finalError := finalError }

/-- The retry `while` loop of `attemptRecovery`, unrolled on the number of
attempts remaining (`fuel = maxAttempts - currentAttempt + 1`); `op ca` is
the outcome of the `ca`-th invocation of the retried operation.  Returns
the structured result together with the trace of backoff sleeps. -/
def recoveryLoop {α : Type} (service : String) (now : Int)
    (error : SentimentError) (opts : RetryOptions)
    (op : Nat → Except JsError α) :
    Nat → Nat → RecoveryResult α × List Nat
  | _, 0 =>
      -- `currentAttempt > maxAttempts` before entering the body: the
      -- "should never happen" tail of the source.
      ({ success := false
         error := some (.sentiment error)
         metadata := some (createErrorMetadata α service now error "unknown" none none) },
       [])
  | ca, fuel + 1 =>
      let backoff := opts.backoffMs * 2 ^ (ca - 1)
      match op ca with
      | .ok _ =>
          ({ success := true
             error := none
             metadata := some
               (createErrorMetadata α service now error "recovered" (some ca) none) },
           [backoff])
      | .error retryError =>
          if fuel = 0 then
            -- `currentAttempt++` made it exceed `maxAttempts`.
            ({ success := false
               error := some retryError
               metadata := some (createErrorMetadata α service now error "max_attempts"
                 (some (ca + 1)) (some retryError)) },
             [backoff])
          else
            let rest := recoveryLoop service now error opts op (ca + 1) fuel
            (rest.1, backoff :: rest.2)

/-- `ErrorRecovery.attemptRecovery(error, operation)`: an error that should
not be retried is reported immediately; otherwise the declared policy
drives the exponential-backoff retry loop starting at attempt 1. -/
def attemptRecovery {α : Type} (service : String) (now : Int)
    (error : SentimentError) (op : Nat → Except JsError α) :
    RecoveryResult α × List Nat :=
  match error.retryable, error.retryOptions with
  | true, some opts => recoveryLoop service now error opts op 1 opts.maxAttempts
  | _, _ =>
      -- `if (!error.shouldRetry)` branch.
      ({ success := false
         error := some (.sentiment error)
         metadata := some (createErrorMetadata α service now error "no_retry" none none) },
       [])

end ErrorRecovery

/-! ### Orchestrator: retry wrappers, initialization and the analysis flow

Translation of the `SentimentAnalysisService` methods of
`src/unnamed/part_002`.  The collaborators (embedding provider, vector
store, cache service, strategy, observers) are passed in as parameters;
each call the orchestrator makes to one of them is additionally recorded
in an effect trace, so that "consults the cache", "generates an
embedding", "notifies observer `i`" become provable statements about the
trace.  Observer identity is positional (a JavaScript `Set` iterates in
insertion order). -/

namespace SentimentAnalysisService

/-- `hashMessage(text)`: SHA-256 hex digest, modelled (like
`SentimentCacheService.generateMessageHash`, which duplicates it) as an
opaque deterministic tagging function. -/
def hashMessage (text : String) : String :=
  "sha256_" ++ text

/-- `generateEmbeddingWithRetry(text)`: first direct provider call, then
one structured recovery; on successful recovery the source returns
`recovery.metadata?.result as Float32Array`.  `generateEmbedding i` is the
outcome of the `i`-th provider invocation (`0` = the initial try, `i ≥ 1`
the `i`-th retry inside recovery).  The returned embedding is an
`Option`: the value the caller actually receives. -/
def generateEmbeddingWithRetry (generateEmbedding : Nat → Except JsError (List ℚ))
    (text : String) (now : Int) : Except JsError (Option (List ℚ)) :=
  match generateEmbedding 0 with
  | .ok embedding => .ok (some embedding)
  | .error e =>
      let embeddingError :=
        EmbeddingError ("Failed to generate embedding for text: " ++ text) (some e.msg)
      let recovery := (ErrorRecovery.attemptRecovery "SentimentAnalysis" now
        embeddingError (fun i => generateEmbedding i)).1
      if recovery.success then
        .ok (recovery.metadata.bind (fun m => m.result))
      else
        .error (.sentiment embeddingError)

/-- `queryVectorStoreWithRetry(params)`: same shape as
`generateEmbeddingWithRetry`, around `vectorStore.query`. -/
def queryVectorStoreWithRetry (query : Nat → Except JsError VectorQueryResult)
    (now : Int) : Except JsError (Option VectorQueryResult) :=
  match query 0 with
  | .ok result => .ok (some result)
  | .error e =>
      let vectorError := VectorStoreError "Failed to query vector store" (some e.msg)
      let recovery := (ErrorRecovery.attemptRecovery "SentimentAnalysis" now
        vectorError (fun i => query i)).1
      if recovery.success then
        .ok (recovery.metadata.bind (fun m => m.result))
      else
        .error (.sentiment vectorError)

/-- `initialize()` modelled as a state transformer on the `initialized`
flag.  `anchorRuns k` says whether the `k`-th execution of
`initializeSentimentAnchors` succeeds (`k = 1` is the inline `try`,
`k ≥ 2` the runs inside the recovery attempt).  Returns the resulting
flag (or the rethrown error) together with the number of times
`initializeSentimentAnchors` was executed. -/
def initializeService (initialized : Bool) (anchorRuns : Nat → Bool) (now : Int) :
    Except JsError Bool × Nat :=
  if initialized then (.ok initialized, 0)
  else if anchorRuns 1 then (.ok true, 1)
  else
    let initError :=
      InitializationError "Failed to initialize sentiment anchors"
        (some "anchor initialization failed")
    let rec' := ErrorRecovery.attemptRecovery "SentimentAnalysis" now initError
      (fun i => if anchorRuns (i + 1) then (.ok () : Except JsError Unit)
                else .error (.plain "anchor initialization failed"))
    if rec'.1.success then
      -- The source returns without assigning `this.initialized` on this path.
      (.ok initialized, 1 + rec'.2.length)
    else
      (.error (.sentiment initError), 1 + rec'.2.length)

/-- The calls `analyzeSentiment` / `createAnalysisCommand().execute()` make
to their collaborators, in order. -/
inductive Effect
  | cacheGet (message : String)
  | embedGen (message : String)
  | vectorQuery (topK : Nat)
  | cacheWrite (messageHash : String)
  | genContext (message : String)
  | notifyOb (idx : Nat) (r : SentimentAnalysisResult)

/-- What `getCachedSentiment` hands back to the orchestrator on a hit,
after parsing: `parseFloat(cached.sentiment)`, `cached.confidence`,
`JSON.parse(cached.context)`. -/
structure CachedSentimentView where
  sentiment : ℝ
  confidence : ℝ
  context : AnalysisContext

/-- An observer is identified by its position in the `Set`'s insertion
order; `o r = true` means its `onSentimentUpdate(r)` throws. -/
abbrev ObserverBehavior := SentimentAnalysisResult → Bool

/-- The orchestrator's collaborators, as the results the calls produce.
`embed` is the resulting behaviour of `generateEmbeddingWithRetry` (whose
internals are modelled separately above), `query` that of
`queryVectorStoreWithRetry`, `cached` that of
`cacheService.getCachedSentiment`, `genCtx` that of `generateContext`. -/
structure OrchestratorEnv where
  cached : String → Option CachedSentimentView
  embed : String → Except JsError (List ℝ)
  strategyAnalyze : String → List ℝ → Except JsError SentimentScore
  query : List ℝ → Nat → Except JsError VectorQueryResult
  genCtx : String → SentimentScore → Except JsError AnalysisContext

/-- `notifyObservers(result)`: `this.observers.forEach(o => o.onSentimentUpdate(result))`.
A `Set.forEach` callback that throws aborts the iteration and propagates;
returns `none` in that case, plus the trace of observers actually
invoked. -/
def notifyObserversRun (r : SentimentAnalysisResult) :
    List ObserverBehavior → Nat → Option Unit × List Effect
  | [], _ => (some (), [])
  | o :: os, i =>
      if o r then (none, [.notifyOb i r])
      else
        let rest := notifyObserversRun r os (i + 1)
        (rest.1, .notifyOb i r :: rest.2)

/-- `analyzeSentiment(text, context)` (steady state, `initialized = true`;
`initializeService` models the initialization check separately).  Any
failure is wrapped in an `AnalysisError` by the surrounding `try/catch`.
Note that the body never consults the sentiment cache: its only cache
interaction is the fire-and-forget `cacheSentiment` write, recorded as a
`cacheWrite` effect at the point `setImmediate` schedules it. -/
noncomputable def analyzeSentimentRun (env : OrchestratorEnv)
    (observers : List ObserverBehavior) (text : String) :
    Except JsError SentimentAnalysisResult × List Effect :=
  let wrap : JsError → JsError := fun e =>
    .sentiment (AnalysisError "Failed to analyze sentiment" (some e.msg))
  match env.embed text with
  | .error e => (.error (wrap e), [.embedGen text])
  | .ok embedding =>
    match env.strategyAnalyze text embedding with
    | .error e => (.error (wrap e), [.embedGen text])
    | .ok sentimentScore =>
      match env.query embedding 5 with
      | .error e => (.error (wrap e), [.embedGen text, .vectorQuery 5])
      | .ok similar =>
        let result : SentimentAnalysisResult :=
          { score := sentimentScore
            context :=
              { recentTrend := calculateTrend (similar.matchList.map (fun m => m.score))
                volatility := calculateVolatility (similar.matchList.map (fun m => m.score))
                dominantCategory :=
                  getDominantCategory similar.matchList sentimentScore.category } }
        let notif := notifyObserversRun result observers 0
        let effects := [.embedGen text, .vectorQuery 5, .cacheWrite (hashMessage text)]
          ++ notif.2
        match notif.1 with
        | some _ => (.ok result, effects)
        | none =>
            (.error (.sentiment (AnalysisError "Failed to analyze sentiment" none)), effects)

/-- `createAnalysisCommand(message).execute()`: checks the sentiment cache
first and, on a hit, rebuilds the result from the cached row (category via
`getCategory`) and returns it — without generating an embedding, querying
the vector store, writing the cache or notifying observers.  On a miss it
runs the fresh-analysis path (embedding, strategy, `generateContext`,
fire-and-forget cache write, observer notification).  Failures are wrapped
in an `AnalysisError`. -/
noncomputable def createAnalysisCommandExec (env : OrchestratorEnv)
    (observers : List ObserverBehavior) (message : String) :
    Except JsError SentimentAnalysisResult × List Effect :=
  let wrap : JsError → JsError := fun e =>
    .sentiment (AnalysisError "Error executing analysis command" (some e.msg))
  match env.cached message with
  | some cached =>
      (.ok { score :=
               { score := cached.sentiment
                 category := getCategory cached.sentiment
                 confidence := cached.confidence }
             context := cached.context },
       [.cacheGet message])
  | none =>
    match env.embed message with
    | .error e => (.error (wrap e), [.cacheGet message, .embedGen message])
    | .ok embedding =>
      match env.strategyAnalyze message embedding with
      | .error e => (.error (wrap e), [.cacheGet message, .embedGen message])
      | .ok sentimentScore =>
        match env.genCtx message sentimentScore with
        | .error e =>
            (.error (wrap e), [.cacheGet message, .embedGen message, .genContext message])
        | .ok context =>
          let result : SentimentAnalysisResult := { score := sentimentScore, context := context }
          let notif := notifyObserversRun result observers 0
          let effects := [.cacheGet message, .embedGen message, .genContext message,
            .cacheWrite (hashMessage message)] ++ notif.2
          match notif.1 with
          | some _ => (.ok result, effects)
          | none =>
              (.error (.sentiment (AnalysisError "Error executing analysis command" none)),
               effects)

end SentimentAnalysisService

/-! ### Concrete sample data used by the theorems -/

/-- A message input to the window manager with fixed user and chat. -/
def sampleMsgInput (t : String) : MessageInput :=
  { text := t, userId := "u", chatId := "c", timestamp := none }

/-- State after five messages in bucket `c_0` (times 0..4 ms). -/
def owSt5 : MessageWindowManager.WindowMap :=
  (MessageWindowManager.addMessage
    (MessageWindowManager.addMessage
      (MessageWindowManager.addMessage
        (MessageWindowManager.addMessage
          (MessageWindowManager.addMessage [] (sampleMsgInput "m1") 0).1
          (sampleMsgInput "m2") 1).1
        (sampleMsgInput "m3") 2).1
      (sampleMsgInput "m4") 3).1
    (sampleMsgInput "m5") 4).1

/-- After a sweep at time 5 the full window `c_0` is `processing`. -/
def owSt6 : MessageWindowManager.WindowMap :=
  (MessageWindowManager.getReadyWindows owSt5 5).1

/-- Message `m6` at time 6 goes to the overflow window `c_0_overflow`. -/
def owSt7 : MessageWindowManager.WindowMap :=
  (MessageWindowManager.addMessage owSt6 (sampleMsgInput "m6") 6).1

/-- Message `m7` at time 7 creates `c_0_overflow` afresh, replacing the
window that held `m6`. -/
def owSt8 : MessageWindowManager.WindowMap :=
  (MessageWindowManager.addMessage owSt7 (sampleMsgInput "m7") 7).1

/-- A two-message collecting window whose end time has passed at `now = 30000`. -/
def readySampleWindow : MessageWindow :=
  { windowId := "c_0", startTime := 0, endTime := 30000, chatId := "c"
    messages := [{ text := "m1", timestamp := 0, userId := "u" },
                 { text := "m2", timestamp := 1, userId := "u" }]
    status := .collecting }

/-- Sample payload for the sentiment cache. -/
def sampleCacheData : SentimentCacheService.CacheData :=
  { messageHash := SentimentCacheService.generateMessageHash "gm"
    embedding := "[0.5]"
    sentiment := "0.5"
    confidence := 9/10
    context := "[]"
    userId := "u1"
    roomId := "room1"
    senderName := "Alice" }

/-- An epoch-millisecond wall-clock instant (2025-10-12 00:00:00 UTC)… -/
def sampleNowMs : Int := 1760227200000

/-- …and the TEXT value SQLite's `datetime('now')` yields at that instant. -/
def sampleNowDatetime : String := "2025-10-12 00:00:00"

/-- A cached row as the orchestrator sees it after parsing. -/
noncomputable def sampleCachedView : SentimentAnalysisService.CachedSentimentView :=
  { sentiment := 1/2
    confidence := 9/10
    context := { recentTrend := 0, volatility := 0, dominantCategory := .neutral } }

/-- Collaborator environment in which every message has an (unexpired)
cache entry and all providers succeed. -/
noncomputable def envHit : SentimentAnalysisService.OrchestratorEnv :=
  { cached := fun _ => some sampleCachedView
    embed := fun _ => .ok [0]
    strategyAnalyze := fun _ _ => .ok { score := 0, category := .neutral, confidence := 1/2 }
    query := fun _ _ => .ok { matchList := [] }
    genCtx := fun _ _ => .ok { recentTrend := 0, volatility := 0, dominantCategory := .neutral } }

/-- Two observers: the first throws on every update, the second does not. -/
def obsFirstThrows : List SentimentAnalysisService.ObserverBehavior :=
  [fun _ => true, fun _ => false]

/-- An embedding provider whose initial call fails and whose first retry
succeeds. -/
def sampleEmbedOp : Nat → Except JsError (List ℚ) :=
  fun i => if i = 0 then .error (.plain "API Error") else .ok [1]

/-- An operation failing on attempts 1–4 and succeeding on attempt 5
(the `EmbeddingError` policy's `maxAttempts`). -/
def sampleRetryOp : Nat → Except JsError Nat :=
  fun i => if i < 5 then .error (.plain "boom") else .ok 42

/-- An operation that fails on every attempt. -/
def sampleFailOp : Nat → Except JsError Nat :=
  fun _ => .error (.plain "boom")

/-- Anchor initialization that fails its first run and succeeds on the
second (the first run inside recovery). -/
def anchorsRecover : Nat → Bool :=
  fun k => decide (2 ≤ k)

/-- The row `cacheSentiment` inserts for `sampleCacheData` at `sampleNowMs`. -/
def sampleCachedRow : SentimentCacheService.CacheRow :=
  { messageHash := SentimentCacheService.generateMessageHash "gm"
    embedding := "[0.5]"
    sentiment := "0.5"
    confidence := 9/10
    context := "[]"
    userId := "u1"
    roomId := "room1"
    senderName := "Alice"
    expiresAt := sampleNowMs + 24 * 60 * 60 * 1000
    createdAt := sampleNowMs }

/-- The `processing` window sitting at bucket `c_0` in `owSt6`. -/
def owProcWindow : MessageWindow :=
  { windowId := "c_0", startTime := 0, endTime := 30000, chatId := "c"
    messages := [{ text := "m1", timestamp := 0, userId := "u" },
                 { text := "m2", timestamp := 1, userId := "u" },
                 { text := "m3", timestamp := 2, userId := "u" },
                 { text := "m4", timestamp := 3, userId := "u" },
                 { text := "m5", timestamp := 4, userId := "u" }]
    status := .processing }

/-- The fresh-analysis result `analyzeSentiment` produces in the
environment `envHit` (no similarity matches, neutral strategy score). -/
noncomputable def sampleFreshResult : SentimentAnalysisResult :=
  { score := { score := 0, category := .neutral, confidence := 1/2 }
    context := { recentTrend := SentimentAnalysisService.calculateTrend []
                 volatility := SentimentAnalysisService.calculateVolatility []
                 dominantCategory := .neutral } }

/-! ## Theorems

First a few helper lemmas about the window map and the recovery loop,
then one theorem (plus witness/counterexample where required) per claim. -/

namespace MessageWindowManager

lemma windowId_of_mapGet {st : WindowMap} {id : String} {w : MessageWindow}
    (h : mapGet st id = some w) : w.windowId = id := by
  have := List.find?_some h
  simpa using this

lemma find?_map_replace {st : WindowMap} {v : MessageWindow}
    (h : st.any (fun x => x.windowId == v.windowId) = true) :
    (st.map (fun x => if x.windowId == v.windowId then v else x)).find?
      (fun w => w.windowId == v.windowId) = some v := by
  induction st with
  | nil => simp at h
  | cons x xs ih =>
      rw [List.map_cons]
      by_cases hx : x.windowId = v.windowId
      · rw [if_pos (by simpa using hx), List.find?_cons_of_pos _ (by simp)]
      · rw [if_neg (by simpa using hx), List.find?_cons_of_neg _ (by simpa using hx)]
        exact ih (by simpa [List.any_cons, hx] using h)

lemma mapGet_mapSet_self (st : WindowMap) (v : MessageWindow) :
    mapGet (mapSet st v) v.windowId = some v := by
  unfold mapGet mapSet
  by_cases h : st.any (fun x => x.windowId == v.windowId) = true
  · rw [if_pos h]
    exact find?_map_replace h
  · rw [if_neg h]
    have hnone : st.find? (fun w => w.windowId == v.windowId) = none := by
      rw [List.find?_eq_none]
      intro x hx hbeq
      exact h (List.any_eq_true.mpr ⟨x, hx, hbeq⟩)
    rw [List.find?_append, hnone]
    simp

lemma find?_map_replace_ne {xs : WindowMap} {v : MessageWindow} {k : String}
    (h : v.windowId ≠ k) :
    (xs.map (fun x => if x.windowId == v.windowId then v else x)).find?
      (fun w => w.windowId == k) = xs.find? (fun w => w.windowId == k) := by
  induction xs with
  | nil => simp
  | cons x xs ih =>
      rw [List.map_cons]
      by_cases hx : x.windowId = v.windowId
      · rw [if_pos (by simpa using hx)]
        rw [List.find?_cons_of_neg _ (by simpa using h),
          List.find?_cons_of_neg _ (by rw [hx]; simpa using h)]
        exact ih
      · rw [if_neg (by simpa using hx)]
        by_cases hxk : x.windowId = k
        · rw [List.find?_cons_of_pos _ (by simpa using hxk),
            List.find?_cons_of_pos _ (by simpa using hxk)]
        · rw [List.find?_cons_of_neg _ (by simpa using hxk),
            List.find?_cons_of_neg _ (by simpa using hxk)]
          exact ih

lemma mapGet_mapSet_ne (st : WindowMap) (v : MessageWindow) (k : String)
    (h : v.windowId ≠ k) : mapGet (mapSet st v) k = mapGet st k := by
  unfold mapGet mapSet
  by_cases hAny : st.any (fun x => x.windowId == v.windowId) = true
  · rw [if_pos hAny]
    exact find?_map_replace_ne h
  · rw [if_neg hAny, List.find?_append]
    have hv : List.find? (fun w => w.windowId == k) [v] = none := by
      simp [List.find?_cons_of_neg, h]
    rw [hv]
    cases st.find? (fun w => w.windowId == k) <;> simp

end MessageWindowManager
lemma append_overflow_ne (a : String) : a ++ "_overflow" ≠ a := by
  intro h
  have hlen := congrArg String.length h
  have h9 : ("_overflow" : String).length = 9 := rfl
  rw [String.length_append, h9] at hlen
  omega

/-- C4 (counterexample): the universal "no message is ever dropped" part of
the claim fails: after five messages fill bucket `c_0` and a sweep marks it
`processing`, message `m6` lands in the overflow window `c_0_overflow`
(`owSt7`), but the next message `m7` creates the overflow window for the
same bucket afresh under the same key, and `m6` is no longer present in any
managed window (`owSt8`). -/
theorem claim_C4_counterexample :
    MessageWindowManager.textPresent owSt7 "m6" ∧
    owSt8 = (MessageWindowManager.addMessage owSt7 (sampleMsgInput "m7") 7).1 ∧
    ¬ MessageWindowManager.textPresent owSt8 "m6" := by
  refine ⟨by decide, rfl, by decide⟩

/-- C4 (amended): a message arriving for a bucket whose window is already
`processing`/`completed` is placed immediately in a new collecting overflow
window `<bucketId>_overflow` containing only that message, and the original
window (still found under the bucket id) is unchanged; the derived-id
window is stored under `<bucketId>_overflow`, so a second overflow arrival
for the same bucket replaces the previous overflow window rather than
extending it, and the replaced window's messages are dropped. -/
theorem claim_C4_amended (st : MessageWindowManager.WindowMap)
    (msg : MessageInput) (now : Nat) (w : MessageWindow)
    (hget : MessageWindowManager.mapGet st
      (MessageWindowManager.getWindowId msg.chatId now) = some w)
    (hst : w.status ≠ .collecting) :
    (MessageWindowManager.addMessage st msg now).2 =
      { windowId := MessageWindowManager.getWindowId msg.chatId now ++ "_overflow"
        startTime := now
        endTime := now + MessageWindowManager.WINDOW_SIZE_MS
        chatId := msg.chatId
        messages := [{ text := msg.text, timestamp := msg.timestamp.getD now
                       userId := msg.userId }]
        status := .collecting } ∧
    MessageWindowManager.mapGet (MessageWindowManager.addMessage st msg now).1
      (MessageWindowManager.getWindowId msg.chatId now) = some w ∧
    MessageWindowManager.mapGet (MessageWindowManager.addMessage st msg now).1
      (MessageWindowManager.getWindowId msg.chatId now ++ "_overflow") =
      some (MessageWindowManager.addMessage st msg now).2 := by
  have hwid := MessageWindowManager.windowId_of_mapGet hget
  have hadd : MessageWindowManager.addMessage st msg now =
      (MessageWindowManager.mapSet (MessageWindowManager.mapSet st w)
        { windowId := MessageWindowManager.getWindowId msg.chatId now ++ "_overflow"
          startTime := now
          endTime := now + MessageWindowManager.WINDOW_SIZE_MS
          chatId := msg.chatId
          messages := [{ text := msg.text, timestamp := msg.timestamp.getD now
                         userId := msg.userId }]
          status := .collecting },
       { windowId := MessageWindowManager.getWindowId msg.chatId now ++ "_overflow"
         startTime := now
         endTime := now + MessageWindowManager.WINDOW_SIZE_MS
         chatId := msg.chatId
         messages := [{ text := msg.text, timestamp := msg.timestamp.getD now
                        userId := msg.userId }]
         status := .collecting }) := by
    simp only [MessageWindowManager.addMessage, hget, if_neg hst]
  rw [hadd]
  refine ⟨rfl, ?_, ?_⟩
  · rw [MessageWindowManager.mapGet_mapSet_ne _ _ _
      (append_overflow_ne _)]
    rw [← hwid]
    exact MessageWindowManager.mapGet_mapSet_self _ _
  · exact MessageWindowManager.mapGet_mapSet_self _ _

/-- C4 (witness): the amended theorem applied to the concrete state
`owSt6`, where bucket `c_0` holds a `processing` window, and message `m6`
arriving at time 6. -/
theorem claim_C4_witness :
    (MessageWindowManager.addMessage owSt6 (sampleMsgInput "m6") 6).2 =
      { windowId := MessageWindowManager.getWindowId "c" 6 ++ "_overflow"
        startTime := 6
        endTime := 6 + MessageWindowManager.WINDOW_SIZE_MS
        chatId := "c"
        messages := [{ text := "m6", timestamp := 6, userId := "u" }]
        status := .collecting } ∧
    MessageWindowManager.mapGet
      (MessageWindowManager.addMessage owSt6 (sampleMsgInput "m6") 6).1
      (MessageWindowManager.getWindowId "c" 6) = some owProcWindow :=
  ⟨(claim_C4_amended owSt6 (sampleMsgInput "m6") 6 owProcWindow (by decide)
      (by decide)).1,
   (claim_C4_amended owSt6 (sampleMsgInput "m6") 6 owProcWindow (by decide)
      (by decide)).2.1⟩

/-- C7: a `collecting` window is marked `processing` and returned by
`getReadyWindows` at time `now` exactly when its message count has reached
5 (regardless of elapsed time) or `now` has passed its `endTime` with at
least 2 messages; a window returned also appears as `processing` in the
updated window map; and a window holding exactly 1 message is never
returned, no matter how much time elapses. -/
theorem claim_C7_getReadyWindows (st : MessageWindowManager.WindowMap)
    (now : Nat) (w : MessageWindow) (hw : w ∈ st)
    (hc : w.status = .collecting) :
    (({ w with status := .processing } ∈ (MessageWindowManager.getReadyWindows st now).2) ↔
      (w.messages.length ≥ 5 ∨ (now ≥ w.endTime ∧ w.messages.length ≥ 2))) ∧
    ({ w with status := .processing } ∈ (MessageWindowManager.getReadyWindows st now).2 →
      { w with status := .processing } ∈ (MessageWindowManager.getReadyWindows st now).1) ∧
    (w.messages.length = 1 →
      { w with status := .processing } ∉ (MessageWindowManager.getReadyWindows st now).2) := by
  have hcond : ∀ v : MessageWindow, MessageWindowManager.windowReady v now ↔
      (v.messages.length ≥ 5 ∨ (now ≥ v.endTime ∧ v.messages.length ≥ 2)) := by
    intro v
    unfold MessageWindowManager.windowReady
      MessageWindowManager.MIN_MESSAGES MessageWindowManager.MAX_MESSAGES
    tauto
  have hmem : ({ w with status := .processing } ∈
      (MessageWindowManager.getReadyWindows st now).2) ↔
      MessageWindowManager.windowReady w now := by
    constructor
    · intro h
      simp only [MessageWindowManager.getReadyWindows, List.mem_map,
        List.mem_filter, decide_eq_true_eq] at h
      obtain ⟨v, ⟨hv, hvc, hvr⟩, heq⟩ := h
      rw [if_pos ⟨hvc, hvr⟩] at heq
      obtain ⟨wid, wst, wend, wch, wmsg, wstat⟩ := w
      obtain ⟨vid, vst, vend, vch, vmsg, vstat⟩ := v
      simp only [MessageWindow.mk.injEq] at heq
      obtain ⟨h1, h2, h3, h4, h5, -⟩ := heq
      subst h1; subst h2; subst h3; subst h4; subst h5
      exact hvr
    · intro hr
      simp only [MessageWindowManager.getReadyWindows, List.mem_map]
      refine ⟨w, ?_, ?_⟩
      · rw [List.mem_filter]
        exact ⟨hw, by simp [hc, hr]⟩
      · rw [if_pos ⟨hc, hr⟩]
  refine ⟨hmem.trans (hcond w), ?_, ?_⟩
  · intro h
    simp only [MessageWindowManager.getReadyWindows, List.mem_map,
      List.mem_filter, decide_eq_true_eq] at h ⊢
    obtain ⟨v, ⟨hv, hp⟩, heq⟩ := h
    exact ⟨v, hv, by rw [if_pos hp] at heq ⊢; exact heq⟩
  · intro h1 hmem'
    have := (hmem.trans (hcond w)).mp hmem'
    omega

/-- C7 (witness): the readiness characterization at the concrete
two-message window `readySampleWindow` whose end time has passed. -/
theorem claim_C7_witness :
    ({ readySampleWindow with status := .processing } ∈
      (MessageWindowManager.getReadyWindows [readySampleWindow] 30000).2) ↔
      (readySampleWindow.messages.length ≥ 5 ∨
        (30000 ≥ readySampleWindow.endTime ∧ readySampleWindow.messages.length ≥ 2)) :=
  (claim_C7_getReadyWindows [readySampleWindow] 30000 readySampleWindow
    (by simp) rfl).1

lemma sqlGt_int_text (i : Int) (s : String) :
    sqlGt (SqlVal.vInt i) (SqlVal.vText s) = false := rfl

/-- C2 (code bug): the caching round-trip never succeeds.  `cacheSentiment`
stores `expiresAt` as INTEGER epoch milliseconds, while `getCachedSentiment`
filters with `expiresAt > datetime('now')`, a comparison of an INTEGER
against a TEXT value; SQLite orders every numeric value strictly below
every text value, so the predicate is always false and retrieval returns
`none` — even immediately after storing, with `now` far before
`expiresAt`.  Shown in general (first conjunct) and evaluated at the
concrete failing input `"gm"` cached at 2025-10-12 00:00:00 UTC. -/
theorem claim_C2_cache_expiry_bug :
    (∀ (tbl : SentimentCacheService.CacheTable) (message nowDatetime : String),
      SentimentCacheService.getCachedSentiment tbl message nowDatetime = none) ∧
    SentimentCacheService.cacheSentiment [] sampleCacheData sampleNowMs =
      .ok [sampleCachedRow] ∧
    sampleNowMs < sampleCachedRow.expiresAt ∧
    SentimentCacheService.getCachedSentiment [sampleCachedRow] "gm"
      sampleNowDatetime = none := by
  refine ⟨?_, rfl, by decide, by decide⟩
  intro tbl message nowDatetime
  unfold SentimentCacheService.getCachedSentiment
  rw [List.find?_eq_none]
  intro r _ hr
  simp [SentimentCacheService.rowMatches, sqlGt_int_text] at hr

lemma backoff_range_one (b ca : Nat) :
    [b * 2 ^ (ca - 1)] = (List.range 1).map (fun j => b * 2 ^ (ca - 1 + j)) := by
  simp [List.range_succ]

lemma backoff_shift (b ca n : Nat) (hca : 1 ≤ ca) :
    b * 2 ^ (ca - 1) :: (List.range n).map (fun j => b * 2 ^ (ca + 1 - 1 + j)) =
      (List.range (n + 1)).map (fun j => b * 2 ^ (ca - 1 + j)) := by
  rw [List.range_succ_eq_map, List.map_cons, List.map_map]
  refine congrArg₂ List.cons (by norm_num) ?_
  apply List.map_congr_left
  intro j hj
  simp only [Function.comp_apply]
  congr 1
  congr 1
  omega

lemma recoveryLoop_trace {α : Type} (service : String) (now : Int)
    (error : SentimentError) (opts : RetryOptions) (op : Nat → Except JsError α) :
    ∀ (fuel ca : Nat), 1 ≤ ca →
      (ErrorRecovery.recoveryLoop service now error opts op ca fuel).2 =
        (List.range
          (ErrorRecovery.recoveryLoop service now error opts op ca fuel).2.length).map
          (fun j => opts.backoffMs * 2 ^ (ca - 1 + j)) := by
  intro fuel
  induction fuel with
  | zero => intro ca _; simp [ErrorRecovery.recoveryLoop]
  | succ f ih =>
      intro ca hca
      rw [ErrorRecovery.recoveryLoop]
      cases hop : op ca with
      | ok v =>
          simp only [List.length_singleton]
          exact backoff_range_one _ _
      | error e =>
          by_cases hf : f = 0
          · subst hf
            simp only [reduceIte, List.length_singleton]
            exact backoff_range_one _ _
          · simp only [hf, reduceIte, List.length_cons]
            rw [ih (ca + 1) (by omega), List.length_map, List.length_range]
            rw [ih (ca + 1) (by omega)]
            exact backoff_shift _ _ _ hca

lemma recoveryLoop_all_fail {α : Type} (service : String) (now : Int)
    (error : SentimentError) (opts : RetryOptions) (op : Nat → Except JsError α)
    (errs : Nat → JsError) :
    ∀ (fuel ca : Nat), 1 ≤ fuel → 1 ≤ ca →
      (∀ i, ca ≤ i → i < ca + fuel → op i = .error (errs i)) →
      ErrorRecovery.recoveryLoop service now error opts op ca fuel =
        ({ success := false
           error := some (errs (ca + fuel - 1))
           metadata := some (ErrorRecovery.createErrorMetadata α service now error
             "max_attempts" (some (ca + fuel)) (some (errs (ca + fuel - 1)))) },
         (List.range fuel).map (fun j => opts.backoffMs * 2 ^ (ca - 1 + j))) := by
  intro fuel
  induction fuel with
  | zero => intro ca h; omega
  | succ f ih =>
      intro ca _ hca hfail
      rw [ErrorRecovery.recoveryLoop]
      rw [hfail ca (le_refl ca) (by omega)]
      by_cases hf : f = 0
      · subst hf
        simp only [reduceIte]
        refine congrArg₂ Prod.mk rfl ?_
        exact backoff_range_one _ _
      · simp only [hf, reduceIte]
        rw [ih (ca + 1) (by omega) (by omega) (fun i h1 h2 => hfail i (by omega) (by omega))]
        refine congrArg₂ Prod.mk ?_ ?_
        · have h1 : ca + 1 + f - 1 = ca + (f + 1) - 1 := by omega
          have h2 : ca + 1 + f = ca + (f + 1) := by omega
          rw [h1, h2]
        · exact backoff_shift _ _ _ hca

lemma recoveryLoop_succeeds {α : Type} (service : String) (now : Int)
    (error : SentimentError) (opts : RetryOptions) (op : Nat → Except JsError α)
    (v : α) :
    ∀ (k ca fuel : Nat), k < fuel → 1 ≤ ca →
      (∀ i, ca ≤ i → i < ca + k → ∃ er, op i = .error er) →
      op (ca + k) = .ok v →
      ErrorRecovery.recoveryLoop service now error opts op ca fuel =
        ({ success := true
           error := none
           metadata := some (ErrorRecovery.createErrorMetadata α service now error
             "recovered" (some (ca + k)) none) },
         (List.range (k + 1)).map (fun j => opts.backoffMs * 2 ^ (ca - 1 + j))) := by
  intro k
  induction k with
  | zero =>
      intro ca fuel hkf hca _ hok
      obtain ⟨f, rfl⟩ : ∃ f, fuel = f + 1 := ⟨fuel - 1, by omega⟩
      rw [ErrorRecovery.recoveryLoop]
      rw [show ca + 0 = ca from rfl] at hok
      rw [hok]
      refine congrArg₂ Prod.mk rfl ?_
      exact backoff_range_one _ _
  | succ k ih =>
      intro ca fuel hkf hca hfail hok
      obtain ⟨f, rfl⟩ : ∃ f, fuel = f + 1 := ⟨fuel - 1, by omega⟩
      obtain ⟨er, her⟩ := hfail ca (le_refl ca) (by omega)
      rw [ErrorRecovery.recoveryLoop, her]
      have hf : ¬ f = 0 := by omega
      simp only [hf, reduceIte]
      rw [ih (ca + 1) f (by omega) (by omega)
        (fun i h1 h2 => hfail i (by omega) (by omega))
        (by rw [show ca + 1 + k = ca + (k + 1) by omega]; exact hok)]
      refine congrArg₂ Prod.mk ?_ ?_
      · rw [show ca + 1 + k = ca + (k + 1) by omega]
      · exact backoff_shift _ _ _ hca

/-- C8: for a retryable error with declared policy `(m, b)`, the recovery
executor sleeps `b * 2^(attempt-1)` before each retry (the sleep trace is
pure exponential backoff); an operation failing on attempts `1..m-1` and
succeeding on attempt `m` yields `success = true` with
`metadata.attempts = m`; one failing on all `m` attempts yields
`success = false` with the final error attached (both as the result's
`error` and as `metadata.finalError`). -/
theorem claim_C8_recovery_policy {α : Type} (service : String) (now : Int)
    (e : SentimentError) (m b : Nat) (hm : 1 ≤ m)
    (hre : e.retryable = true) (hro : e.retryOptions = some ⟨m, b⟩)
    (op : Nat → Except JsError α) :
    ((ErrorRecovery.attemptRecovery service now e op).2 =
      (List.range (ErrorRecovery.attemptRecovery service now e op).2.length).map
        (fun j => b * 2 ^ j)) ∧
    (∀ (errs : Nat → JsError) (v : α),
      (∀ i, 1 ≤ i → i < m → op i = .error (errs i)) → op m = .ok v →
      (ErrorRecovery.attemptRecovery service now e op).1.success = true ∧
      ∃ md, (ErrorRecovery.attemptRecovery service now e op).1.metadata = some md ∧
        md.attempts = some m) ∧
    (∀ (errs : Nat → JsError),
      (∀ i, 1 ≤ i → i ≤ m → op i = .error (errs i)) →
      (ErrorRecovery.attemptRecovery service now e op).1.success = false ∧
      (ErrorRecovery.attemptRecovery service now e op).1.error = some (errs m) ∧
      ∃ md, (ErrorRecovery.attemptRecovery service now e op).1.metadata = some md ∧
        md.finalError = some (errs m)) := by
  have hunfold : ErrorRecovery.attemptRecovery service now e op =
      ErrorRecovery.recoveryLoop service now e ⟨m, b⟩ op 1 m := by
    unfold ErrorRecovery.attemptRecovery
    rw [hre, hro]
  refine ⟨?_, ?_, ?_⟩
  · rw [hunfold]
    have := recoveryLoop_trace service now e ⟨m, b⟩ op m 1 (le_refl 1)
    simpa using this
  · intro errs v hfail hok
    rw [hunfold, recoveryLoop_succeeds service now e ⟨m, b⟩ op v (m - 1) 1 m
      (by omega) (le_refl 1)
      (fun i h1 h2 => ⟨errs i, hfail i h1 (by omega)⟩)
      (by rw [show 1 + (m - 1) = m by omega]; exact hok)]
    exact ⟨rfl, _, rfl, by rw [show 1 + (m - 1) = m by omega]; rfl⟩
  · intro errs hfail
    rw [hunfold, recoveryLoop_all_fail service now e ⟨m, b⟩ op errs m 1 hm
      (le_refl 1) (fun i h1 h2 => hfail i h1 (by omega))]
    refine ⟨rfl, by rw [show 1 + m - 1 = m by omega], _, rfl,
      by rw [show 1 + m - 1 = m by omega]; rfl⟩

/-- C8 (witness): the `EmbeddingError` policy (5 attempts, 500 ms) applied
to `sampleRetryOp`, which fails on attempts 1–4 and succeeds on attempt 5:
recovery succeeds with `attempts = 5`. -/
theorem claim_C8_witness :
    (ErrorRecovery.attemptRecovery "SentimentAnalysis" 0
      (EmbeddingError "e" none) sampleRetryOp).1.success = true ∧
    ∃ md, (ErrorRecovery.attemptRecovery "SentimentAnalysis" 0
      (EmbeddingError "e" none) sampleRetryOp).1.metadata = some md ∧
      md.attempts = some 5 :=
  (claim_C8_recovery_policy "SentimentAnalysis" 0 (EmbeddingError "e" none)
    5 500 (by omega) rfl rfl sampleRetryOp).2.1
    (fun _ => .plain "boom") 42
    (fun i h1 h2 => by
      unfold sampleRetryOp
      rw [if_pos (by omega)])
    (by unfold sampleRetryOp; rw [if_neg (by omega)])

lemma recoveryLoop_result_none {α : Type} (service : String) (now : Int)
    (error : SentimentError) (opts : RetryOptions) (op : Nat → Except JsError α) :
    ∀ (fuel ca : Nat) (md : ErrorMetadata α),
      (ErrorRecovery.recoveryLoop service now error opts op ca fuel).1.metadata =
        some md → md.result = none := by
  intro fuel
  induction fuel with
  | zero =>
      intro ca md h
      rw [ErrorRecovery.recoveryLoop] at h
      simp only [Option.some.injEq] at h
      rw [← h]
      rfl
  | succ f ih =>
      intro ca md h
      rw [ErrorRecovery.recoveryLoop] at h
      cases hop : op ca with
      | ok v =>
          rw [hop] at h
          simp only [Option.some.injEq] at h
          rw [← h]
          rfl
      | error e =>
          rw [hop] at h
          by_cases hf : f = 0
          · subst hf
            simp only [reduceIte, Option.some.injEq] at h
            rw [← h]
            rfl
          · simp only [hf, reduceIte] at h
            exact ih (ca + 1) md h

lemma attemptRecovery_result_none {α : Type} (service : String) (now : Int)
    (e : SentimentError) (op : Nat → Except JsError α) (md : ErrorMetadata α)
    (h : (ErrorRecovery.attemptRecovery service now e op).1.metadata = some md) :
    md.result = none := by
  unfold ErrorRecovery.attemptRecovery at h
  cases hr : e.retryable with
  | true =>
      rw [hr] at h
      cases ho : e.retryOptions with
      | some opts =>
          rw [ho] at h
          exact recoveryLoop_result_none service now e opts op _ 1 md h
      | none =>
          rw [ho] at h
          simp only [Option.some.injEq] at h
          rw [← h]
          rfl
  | false =>
      rw [hr] at h
      simp only [Option.some.injEq] at h
      rw [← h]
      rfl

/-- C6: a successful `RecoveryResult` never carries a `result` field in its
metadata (the recovered operation's return value is discarded); hence
`generateEmbeddingWithRetry` and `queryVectorStoreWithRetry`, which return
`recovery.metadata?.result` on the successful-recovery path, hand back
`undefined` (`none`) rather than the recovered value — their only outcomes
after a failed initial call are `none` or the wrapped thrown error. -/
theorem claim_C6_recovery_discards_result :
    (∀ (α : Type) (service : String) (now : Int) (e : SentimentError)
       (op : Nat → Except JsError α) (md : ErrorMetadata α),
      (ErrorRecovery.attemptRecovery service now e op).1.success = true →
      (ErrorRecovery.attemptRecovery service now e op).1.metadata = some md →
      md.result = none) ∧
    (∀ (gen : Nat → Except JsError (List ℚ)) (text : String) (now : Int)
       (er : JsError),
      gen 0 = .error er →
      SentimentAnalysisService.generateEmbeddingWithRetry gen text now = .ok none ∨
      SentimentAnalysisService.generateEmbeddingWithRetry gen text now =
        .error (.sentiment (EmbeddingError
          ("Failed to generate embedding for text: " ++ text) (some er.msg)))) ∧
    (∀ (q : Nat → Except JsError VectorQueryResult) (now : Int) (er : JsError),
      q 0 = .error er →
      SentimentAnalysisService.queryVectorStoreWithRetry q now = .ok none ∨
      SentimentAnalysisService.queryVectorStoreWithRetry q now =
        .error (.sentiment (VectorStoreError "Failed to query vector store"
          (some er.msg)))) := by
  refine ⟨fun α s n e op md _ h => attemptRecovery_result_none s n e op md h, ?_, ?_⟩
  · intro gen text now er hgen
    unfold SentimentAnalysisService.generateEmbeddingWithRetry
    simp only [hgen]
    by_cases hs : (ErrorRecovery.attemptRecovery "SentimentAnalysis" now
        (EmbeddingError ("Failed to generate embedding for text: " ++ text)
          (some er.msg)) (fun i => gen i)).1.success = true
    · left
      rw [if_pos hs]
      congr 1
      cases hmd : (ErrorRecovery.attemptRecovery "SentimentAnalysis" now
          (EmbeddingError ("Failed to generate embedding for text: " ++ text)
            (some er.msg)) (fun i => gen i)).1.metadata with
      | none => rfl
      | some md =>
          exact attemptRecovery_result_none _ _ _ _ md hmd
    · right
      rw [if_neg hs]
  · intro q now er hq
    unfold SentimentAnalysisService.queryVectorStoreWithRetry
    simp only [hq]
    by_cases hs : (ErrorRecovery.attemptRecovery "SentimentAnalysis" now
        (VectorStoreError "Failed to query vector store" (some er.msg))
        (fun i => q i)).1.success = true
    · left
      rw [if_pos hs]
      congr 1
      cases hmd : (ErrorRecovery.attemptRecovery "SentimentAnalysis" now
          (VectorStoreError "Failed to query vector store" (some er.msg))
          (fun i => q i)).1.metadata with
      | none => rfl
      | some md =>
          exact attemptRecovery_result_none _ _ _ _ md hmd
    · right
      rw [if_neg hs]

/-- C6 (witness): the embedding wrapper at the concrete provider
`sampleEmbedOp` (initial call fails, first retry succeeds): the caller
receives `none`, not the recovered embedding `[1]`. -/
theorem claim_C6_witness :
    SentimentAnalysisService.generateEmbeddingWithRetry sampleEmbedOp "t" 0 =
      .ok none ∨
    SentimentAnalysisService.generateEmbeddingWithRetry sampleEmbedOp "t" 0 =
      .error (.sentiment (EmbeddingError
        "Failed to generate embedding for text: t" (some "API Error"))) :=
  claim_C6_recovery_discards_result.2.1 sampleEmbedOp "t" 0 (.plain "API Error") rfl

/-- C9 (counterexample): when the inline anchor initialization fails and
the bounded recovery attempt succeeds (run 2), `initialize()` returns
without throwing, yet the service is left with `initialized = false`
(`this.initialized` is never assigned on the recovery path), so a
subsequent call performs anchor initialization again — against the claim
that a non-throwing return leaves the service `ready` with no further
anchor initialization. -/
theorem claim_C9_counterexample :
    (SentimentAnalysisService.initializeService false anchorsRecover 0).1 =
      .ok false ∧
    (SentimentAnalysisService.initializeService false anchorsRecover 0).2 = 2 ∧
    0 < (SentimentAnalysisService.initializeService false (fun _ => true) 0).2 :=
  ⟨rfl, rfl, by decide⟩

/-- C9 (amended): `initialize()` is idempotent once the service is ready
(no anchor runs, returns normally); a first-attempt success makes it ready
after one anchor run; if the inline attempt fails, then whatever recovery
does the call either returns normally with the flag still `false`
(successful recovery — the flag is never set on that path) or rethrows the
`InitializationError`; and when the inline attempt and all three recovery
retries fail, it rethrows, leaving the service uninitialized. -/
theorem claim_C9_amended (anchorRuns : Nat → Bool) (now : Int) :
    (SentimentAnalysisService.initializeService true anchorRuns now =
      (.ok true, 0)) ∧
    (anchorRuns 1 = true →
      SentimentAnalysisService.initializeService false anchorRuns now =
        (.ok true, 1)) ∧
    (anchorRuns 1 = false →
      (SentimentAnalysisService.initializeService false anchorRuns now).1 =
        .ok false ∨
      (SentimentAnalysisService.initializeService false anchorRuns now).1 =
        .error (.sentiment (InitializationError
          "Failed to initialize sentiment anchors"
          (some "anchor initialization failed")))) ∧
    (anchorRuns 1 = false → anchorRuns 2 = false → anchorRuns 3 = false →
      anchorRuns 4 = false →
      (SentimentAnalysisService.initializeService false anchorRuns now).1 =
        .error (.sentiment (InitializationError
          "Failed to initialize sentiment anchors"
          (some "anchor initialization failed")))) := by
  refine ⟨rfl, ?_, ?_, ?_⟩
  · intro h1
    unfold SentimentAnalysisService.initializeService
    simp [h1]
  · intro h1
    unfold SentimentAnalysisService.initializeService
    simp only [h1, Bool.false_eq_true, if_false]
    by_cases hs : (ErrorRecovery.attemptRecovery "SentimentAnalysis" now
        (InitializationError "Failed to initialize sentiment anchors"
          (some "anchor initialization failed"))
        (fun i => if anchorRuns (i + 1) then (.ok () : Except JsError Unit)
                  else .error (.plain "anchor initialization failed"))).1.success = true
    · left
      simp [hs]
    · right
      simp [hs]
  · intro h1 h2 h3 h4
    unfold SentimentAnalysisService.initializeService
    simp only [h1, Bool.false_eq_true, if_false]
    have hfail := recoveryLoop_all_fail "SentimentAnalysis" now
      (InitializationError "Failed to initialize sentiment anchors"
        (some "anchor initialization failed")) ⟨3, 1000⟩
      (fun i => if anchorRuns (i + 1) then (.ok () : Except JsError Unit)
                else .error (.plain "anchor initialization failed"))
      (fun _ => .plain "anchor initialization failed") 3 1 (by omega) (by omega)
      (by intro i hi1 hi2
          interval_cases i <;> simp [h2, h3, h4])
    have hatt : ErrorRecovery.attemptRecovery "SentimentAnalysis" now
        (InitializationError "Failed to initialize sentiment anchors"
          (some "anchor initialization failed"))
        (fun i => if anchorRuns (i + 1) then (.ok () : Except JsError Unit)
                  else .error (.plain "anchor initialization failed")) =
        ErrorRecovery.recoveryLoop "SentimentAnalysis" now
          (InitializationError "Failed to initialize sentiment anchors"
            (some "anchor initialization failed")) ⟨3, 1000⟩
          (fun i => if anchorRuns (i + 1) then (.ok () : Except JsError Unit)
                    else .error (.plain "anchor initialization failed")) 1 3 := rfl
    rw [hatt, hfail]
    simp

/-- C9 (witness): the amended theorem at a service that is already ready,
and at an uninitialized service whose first anchor run succeeds. -/
theorem claim_C9_witness :
    SentimentAnalysisService.initializeService true (fun _ => true) 0 =
      (.ok true, 0) ∧
    SentimentAnalysisService.initializeService false (fun _ => true) 0 =
      (.ok true, 1) :=
  ⟨(claim_C9_amended (fun _ => true) 0).1,
   (claim_C9_amended (fun _ => true) 0).2.1 rfl⟩

namespace SentimentAnalysisService

lemma notifyObserversRun_no_throw (r : SentimentAnalysisResult) :
    ∀ (obs : List ObserverBehavior) (i : Nat), (∀ o ∈ obs, o r = false) →
      notifyObserversRun r obs i =
        (some (), (List.range obs.length).map (fun j => .notifyOb (i + j) r)) := by
  intro obs
  induction obs with
  | nil => intro i _; simp [notifyObserversRun]
  | cons o os ih =>
      intro i h
      rw [notifyObserversRun]
      rw [h o (by simp)]
      rw [ih (i + 1) (fun o' ho' => h o' (by simp [ho']))]
      simp only [List.length_cons]
      rw [List.range_succ_eq_map]
      simp only [List.map_cons, List.map_map]
      refine congrArg₂ Prod.mk rfl (congrArg₂ List.cons (by rw [Nat.add_zero]) ?_)
      apply List.map_congr_left
      intro j hj
      simp only [Function.comp_apply]
      rw [show i + 1 + j = i + (j + 1) from by omega]

lemma notifyObserversRun_throws (r : SentimentAnalysisResult)
    (o : ObserverBehavior) (post : List ObserverBehavior) (ho : o r = true) :
    ∀ (pre : List ObserverBehavior) (i : Nat), (∀ p ∈ pre, p r = false) →
      notifyObserversRun r (pre ++ o :: post) i =
        (none, (List.range pre.length).map (fun j => .notifyOb (i + j) r) ++
          [.notifyOb (i + pre.length) r]) := by
  intro pre
  induction pre with
  | nil =>
      intro i _
      rw [List.nil_append, notifyObserversRun, ho]
      simp
  | cons p ps ih =>
      intro i h
      rw [List.cons_append, notifyObserversRun]
      rw [h p (by simp)]
      rw [ih (i + 1) (fun p' hp' => h p' (by simp [hp']))]
      simp only [List.length_cons]
      rw [List.range_succ_eq_map]
      simp only [List.map_cons, List.map_map, List.cons_append]
      refine congrArg₂ Prod.mk rfl ?_
      refine congrArg₂ List.cons (by rw [Nat.add_zero]) ?_
      refine congrArg₂ (· ++ ·) ?_ ?_
      · apply List.map_congr_left
        intro j hj
        simp only [Function.comp_apply]
        rw [show i + 1 + j = i + (j + 1) from by omega]
      · rw [show i + 1 + ps.length = i + (ps.length + 1) from by omega]

lemma notifyObserversRun_only_notify (r : SentimentAnalysisResult) :
    ∀ (obs : List ObserverBehavior) (i : Nat),
      ∀ e ∈ (notifyObserversRun r obs i).2, ∃ j r', e = .notifyOb j r' := by
  intro obs
  induction obs with
  | nil => intro i e he; simp [notifyObserversRun] at he
  | cons o os ih =>
      intro i e he
      rw [notifyObserversRun] at he
      cases ho : o r with
      | true =>
          rw [ho] at he
          simp at he
          exact ⟨i, r, he⟩
      | false =>
          rw [ho] at he
          simp at he
          rcases he with he | he
          · exact ⟨i, r, he⟩
          · exact ih (i + 1) e he

end SentimentAnalysisService

/-- C1 (counterexample): in the environment `envHit`, the cache holds an
entry for `"gm"`, yet `analyzeSentiment("gm", …)` still generates an
embedding and never consults the content-addressed cache — its effect
trace contains `embedGen` and no `cacheGet`. -/
theorem claim_C1_counterexample :
    envHit.cached "gm" = some sampleCachedView ∧
    SentimentAnalysisService.Effect.embedGen "gm" ∈
      (SentimentAnalysisService.analyzeSentimentRun envHit [] "gm").2 ∧
    SentimentAnalysisService.Effect.cacheGet "gm" ∉
      (SentimentAnalysisService.analyzeSentimentRun envHit [] "gm").2 := by
  have heff : (SentimentAnalysisService.analyzeSentimentRun envHit [] "gm").2 =
      [.embedGen "gm", .vectorQuery 5,
       .cacheWrite (SentimentAnalysisService.hashMessage "gm")] := by
    simp [SentimentAnalysisService.analyzeSentimentRun, envHit,
      SentimentAnalysisService.notifyObserversRun]
  refine ⟨rfl, ?_, ?_⟩
  · rw [heff]; simp
  · rw [heff]; simp

/-- C1 (amended): the exact-text cache-first fast path exists only in
`createAnalysisCommand().execute()`, which `analyzeSentiment` never
invokes: on a cache hit that command returns the cached result after the
single cache lookup, with no embedding generation and no similarity
query; `analyzeSentiment` itself never consults the content-addressed
cache and its first action is always to generate an embedding for the
input text. -/
theorem claim_C1_amended :
    (∀ (env : SentimentAnalysisService.OrchestratorEnv)
       (obs : List SentimentAnalysisService.ObserverBehavior) (msg : String)
       (entry : SentimentAnalysisService.CachedSentimentView),
      env.cached msg = some entry →
      SentimentAnalysisService.createAnalysisCommandExec env obs msg =
        (.ok { score := { score := entry.sentiment
                          category := SentimentAnalysisService.getCategory entry.sentiment
                          confidence := entry.confidence }
               context := entry.context },
         [.cacheGet msg])) ∧
    (∀ (env : SentimentAnalysisService.OrchestratorEnv)
       (obs : List SentimentAnalysisService.ObserverBehavior) (msg : String),
      (SentimentAnalysisService.analyzeSentimentRun env obs msg).2.head? =
        some (.embedGen msg)) ∧
    (∀ (env : SentimentAnalysisService.OrchestratorEnv)
       (obs : List SentimentAnalysisService.ObserverBehavior) (msg : String),
      ∀ e ∈ (SentimentAnalysisService.analyzeSentimentRun env obs msg).2,
        ∀ m, e ≠ .cacheGet m) := by
  refine ⟨?_, ?_, ?_⟩
  · intro env obs msg entry h
    unfold SentimentAnalysisService.createAnalysisCommandExec
    rw [h]
  · intro env obs msg
    simp only [SentimentAnalysisService.analyzeSentimentRun]
    repeat' split
    all_goals rfl
  · intro env obs msg e he m
    simp only [SentimentAnalysisService.analyzeSentimentRun] at he
    repeat' split at he
    all_goals simp at he
    · simp [he]
    · simp [he]
    · rcases he with he | he <;> simp [he]
    · rcases he with he | he | he | he
      · simp [he]
      · simp [he]
      · simp [he]
      · obtain ⟨j, r', hjr⟩ := SentimentAnalysisService.notifyObserversRun_only_notify
          _ obs 0 e he
        simp [hjr]
    · rcases he with he | he | he | he
      · simp [he]
      · simp [he]
      · simp [he]
      · obtain ⟨j, r', hjr⟩ := SentimentAnalysisService.notifyObserversRun_only_notify
          _ obs 0 e he
        simp [hjr]

/-- C1 (witness): the cache-hit fast path of
`createAnalysisCommand().execute()` at the concrete environment `envHit`. -/
theorem claim_C1_witness :
    SentimentAnalysisService.createAnalysisCommandExec envHit [] "gm" =
      (.ok { score := { score := sampleCachedView.sentiment
                        category := SentimentAnalysisService.getCategory
                          sampleCachedView.sentiment
                        confidence := sampleCachedView.confidence }
             context := sampleCachedView.context },
       [.cacheGet "gm"]) :=
  claim_C1_amended.1 envHit [] "gm" sampleCachedView rfl

/-- C3 (counterexample): with two registered observers of which the first
throws, a successful fresh analysis notifies only observer 0; observer 1
is never notified, and `analyzeSentiment` throws an `AnalysisError`
instead of returning the result — falsifying the claim that an observer's
exception leaves the remaining observers notified and the result
returned. -/
theorem claim_C3_counterexample :
    (SentimentAnalysisService.analyzeSentimentRun envHit obsFirstThrows "gm").1 =
      .error (.sentiment (AnalysisError "Failed to analyze sentiment" none)) ∧
    (SentimentAnalysisService.analyzeSentimentRun envHit obsFirstThrows "gm").2 =
      [.embedGen "gm", .vectorQuery 5,
       .cacheWrite (SentimentAnalysisService.hashMessage "gm"),
       .notifyOb 0 sampleFreshResult] := by
  constructor <;>
    simp [SentimentAnalysisService.analyzeSentimentRun, envHit, obsFirstThrows,
      SentimentAnalysisService.notifyObserversRun, sampleFreshResult,
      SentimentAnalysisService.getDominantCategory]

/-- C3 (amended): when the providers succeed, all registered observers are
notified synchronously, in registration order, each with the full result,
and the result is returned — provided no observer throws; if an observer
throws, the observers after it are not notified and `analyzeSentiment`
throws an `AnalysisError` instead of returning the result (the observers
before it have already been notified). -/
theorem claim_C3_amended (env : SentimentAnalysisService.OrchestratorEnv)
    (text : String) (emb : List ℝ) (sc : SentimentScore)
    (vq : VectorQueryResult)
    (he : env.embed text = .ok emb)
    (hs : env.strategyAnalyze text emb = .ok sc)
    (hq : env.query emb 5 = .ok vq) :
    (∀ obs : List SentimentAnalysisService.ObserverBehavior,
      (∀ o ∈ obs, ∀ r', o r' = false) →
      ∃ r, (SentimentAnalysisService.analyzeSentimentRun env obs text).1 = .ok r ∧
        (SentimentAnalysisService.analyzeSentimentRun env obs text).2 =
          [.embedGen text, .vectorQuery 5,
           .cacheWrite (SentimentAnalysisService.hashMessage text)] ++
            (List.range obs.length).map (fun j => .notifyOb j r)) ∧
    (∀ (pre : List SentimentAnalysisService.ObserverBehavior)
       (o : SentimentAnalysisService.ObserverBehavior)
       (post : List SentimentAnalysisService.ObserverBehavior),
      (∀ p ∈ pre, ∀ r', p r' = false) → (∀ r', o r' = true) →
      ∃ r, (SentimentAnalysisService.analyzeSentimentRun env
          (pre ++ o :: post) text).1 =
          .error (.sentiment (AnalysisError "Failed to analyze sentiment" none)) ∧
        (SentimentAnalysisService.analyzeSentimentRun env (pre ++ o :: post) text).2 =
          [.embedGen text, .vectorQuery 5,
           .cacheWrite (SentimentAnalysisService.hashMessage text)] ++
            ((List.range pre.length).map (fun j => .notifyOb j r) ++
              [.notifyOb pre.length r])) := by
  constructor
  · intro obs hobs
    refine ⟨⟨sc, ⟨SentimentAnalysisService.calculateTrend (vq.matchList.map (fun m => m.score)),
      SentimentAnalysisService.calculateVolatility (vq.matchList.map (fun m => m.score)),
      SentimentAnalysisService.getDominantCategory vq.matchList sc.category⟩⟩, ?_, ?_⟩ <;>
      simp [SentimentAnalysisService.analyzeSentimentRun, he, hs, hq,
        SentimentAnalysisService.notifyObserversRun_no_throw _ obs 0
          (fun o ho => hobs o ho _)]
  · intro pre o post hpre ho
    refine ⟨⟨sc, ⟨SentimentAnalysisService.calculateTrend (vq.matchList.map (fun m => m.score)),
      SentimentAnalysisService.calculateVolatility (vq.matchList.map (fun m => m.score)),
      SentimentAnalysisService.getDominantCategory vq.matchList sc.category⟩⟩, ?_, ?_⟩ <;>
      simp [SentimentAnalysisService.analyzeSentimentRun, he, hs, hq,
        SentimentAnalysisService.notifyObserversRun_throws _ o post (ho _) pre 0
          (fun p hp => hpre p hp _)]

/-- C3 (witness): the amended theorem at the concrete environment `envHit`
with two non-throwing observers. -/
theorem claim_C3_witness :
    ∃ r, (SentimentAnalysisService.analyzeSentimentRun envHit
        [fun _ => false, fun _ => false] "gm").1 = .ok r ∧
      (SentimentAnalysisService.analyzeSentimentRun envHit
        [fun _ => false, fun _ => false] "gm").2 =
        [.embedGen "gm", .vectorQuery 5,
         .cacheWrite (SentimentAnalysisService.hashMessage "gm")] ++
          (List.range 2).map (fun j => .notifyOb j r) :=
  (claim_C3_amended envHit "gm" [0] { score := 0, category := .neutral, confidence := 1/2 }
    { matchList := [] } rfl rfl rfl).1 [fun _ => false, fun _ => false]
    (by intro o ho r'; simp at ho; simp [ho])

lemma exists_of_mem_zipWith {α β γ : Type} {f : α → β → γ} {l₁ : List α}
    {l₂ : List β} {x : γ} (h : x ∈ List.zipWith f l₁ l₂) :
    ∃ a ∈ l₁, ∃ b ∈ l₂, x = f a b := by
  induction l₁ generalizing l₂ with
  | nil => simp at h
  | cons a as ih =>
      cases l₂ with
      | nil => simp at h
      | cons b bs =>
          rw [List.zipWith_cons_cons] at h
          rcases List.mem_cons.mp h with h | h
          · exact ⟨a, by simp, b, by simp, h⟩
          · obtain ⟨a', ha', b', hb', hx⟩ := ih h
            exact ⟨a', by simp [ha'], b', by simp [hb'], hx⟩

/-- C10: fewer than 2 similarity scores yield trend = volatility = 0; every
volatility lies in `[0, 1]` and every trend in `[-1, 1]`; the strictly
increasing sequence `[0.1, 0.3, 0.5, 0.7]` has positive trend; the flat
sequence `[0.5, 0.5, 0.5, 0.5]` has volatility 0, strictly below the
volatility of the alternating sequence `[0.1, 0.9, 0.1, 0.9]`. -/
theorem claim_C10_trend_volatility :
    (∀ s : List ℝ, s.length < 2 →
      SentimentAnalysisService.calculateTrend s = 0 ∧
      SentimentAnalysisService.calculateVolatility s = 0) ∧
    (∀ s : List ℝ, 0 ≤ SentimentAnalysisService.calculateVolatility s ∧
      SentimentAnalysisService.calculateVolatility s ≤ 1) ∧
    (∀ s : List ℝ, -1 ≤ SentimentAnalysisService.calculateTrend s ∧
      SentimentAnalysisService.calculateTrend s ≤ 1) ∧
    0 < SentimentAnalysisService.calculateTrend [0.1, 0.3, 0.5, 0.7] ∧
    SentimentAnalysisService.calculateVolatility [0.5, 0.5, 0.5, 0.5] = 0 ∧
    SentimentAnalysisService.calculateVolatility [0.5, 0.5, 0.5, 0.5] <
      SentimentAnalysisService.calculateVolatility [0.1, 0.9, 0.1, 0.9] := by
  have hflat : SentimentAnalysisService.calculateVolatility [0.5, 0.5, 0.5, 0.5] = 0 := by
    unfold SentimentAnalysisService.calculateVolatility
    rw [if_neg (by norm_num)]
    norm_num [List.range_succ]
  refine ⟨?_, ?_, ?_, ?_, hflat, ?_⟩
  · intro s h
    constructor
    · unfold SentimentAnalysisService.calculateTrend
      rw [if_pos h]
    · unfold SentimentAnalysisService.calculateVolatility
      rw [if_pos h]
  · intro s
    unfold SentimentAnalysisService.calculateVolatility
    by_cases h : s.length < 2
    · simp [h]
    · rw [if_neg h]
      constructor
      · refine le_min (by norm_num) ?_
        have hsum : 0 ≤ (List.zipWith
            (fun diff (i : ℕ) => diff * (4 : ℝ) ^ ((i : ℝ) /
              (((s.tail.zipWith (fun next prev => |next - prev|) s).map
                (fun diff => diff ^ (3 : ℕ))).length : ℝ)))
            ((List.zipWith (fun next prev => |next - prev|) s.tail s).map
              (fun diff => diff ^ (3 : ℕ)))
            (List.range ((List.zipWith (fun next prev => |next - prev|) s.tail s).map
              (fun diff => diff ^ (3 : ℕ))).length)).sum := by
          apply List.sum_nonneg
          intro x hx
          obtain ⟨a, ha, b, hb, hxab⟩ := exists_of_mem_zipWith hx
          obtain ⟨d, hd, hda⟩ := List.mem_map.mp ha
          obtain ⟨p, hp, q, hq, hdq⟩ := exists_of_mem_zipWith hd
          subst hxab
          subst hda
          subst hdq
          positivity
        positivity
      · exact min_le_left _ _
  · intro s
    unfold SentimentAnalysisService.calculateTrend
    by_cases h : s.length < 2
    · simp [h]
    · rw [if_neg h]
      exact ⟨le_min (by norm_num) (le_max_left _ _), min_le_left _ _⟩
  · unfold SentimentAnalysisService.calculateTrend
    rw [if_neg (by norm_num)]
    norm_num [List.range_succ, Real.sign_of_pos, abs_of_pos]
    positivity
  · rw [hflat]
    unfold SentimentAnalysisService.calculateVolatility
    rw [if_neg (by norm_num)]
    norm_num [List.range_succ, abs_of_pos, abs_of_neg]
    positivity

/-- C10 (witness): the insufficient-history clause of the theorem applied
to the empty score list. -/
theorem claim_C10_witness :
    SentimentAnalysisService.calculateTrend ([] : List ℝ) = 0 ∧
    SentimentAnalysisService.calculateVolatility ([] : List ℝ) = 0 :=
  claim_C10_trend_volatility.1 [] (by norm_num)

lemma one_le_ite_mul {c : Prop} [Decidable c] {m k : ℚ} (hm : 1 ≤ m)
    (hk : 1 ≤ k) : 1 ≤ if c then m * k else m := by
  split_ifs
  · nlinarith
  · exact hm

lemma one_le_ite_ite_mul {c1 c2 : Prop} [Decidable c1] [Decidable c2]
    {m k1 k2 : ℚ} (hm : 1 ≤ m) (hk1 : 1 ≤ k1) (hk2 : 1 ≤ k2) :
    1 ≤ if c1 then m * k1 else if c2 then m * k2 else m := by
  split_ifs <;> nlinarith

lemma one_le_calculateEmphasisMultiplier (text : String) :
    1 ≤ SentimentAnalysisService.calculateEmphasisMultiplier text := by
  simp only [SentimentAnalysisService.calculateEmphasisMultiplier]
  apply one_le_ite_mul _ (by norm_num)
  apply one_le_ite_ite_mul _ (by norm_num) (by norm_num)
  apply one_le_ite_mul _ (by norm_num)
  apply one_le_ite_ite_mul _ (by norm_num) (by norm_num)
  apply one_le_ite_mul _ (by norm_num)
  apply one_le_ite_mul _ (by norm_num)
  apply one_le_ite_mul _ (by norm_num)
  apply one_le_ite_ite_mul _ (by norm_num) (by norm_num)
  norm_num

lemma calculateSentimentScore_mem (text : String) (embedding : List ℝ) :
    -1 ≤ SentimentAnalysisService.calculateSentimentScore text embedding ∧
    SentimentAnalysisService.calculateSentimentScore text embedding ≤ 1 := by
  simp only [SentimentAnalysisService.calculateSentimentScore]
  exact ⟨le_min (by norm_num) (le_max_left _ _), min_le_left _ _⟩

lemma emphasisMultiplier_MOON :
    SentimentAnalysisService.calculateEmphasisMultiplier "MOON PUMP!!!" = 27/5 := by
  unfold SentimentAnalysisService.calculateEmphasisMultiplier
  rw [show countAltList (["üî•", "üíØ", "‚≠ê"].map String.data) "MOON PUMP!!!".data = 0
    from by decide]
  norm_num [show countOccur "üöÄ" "MOON PUMP!!!" = 0 from by decide,
    show strMatchesAlt ["üíé", "üôå"] "MOON PUMP!!!" = false from by decide,
    show strMatchesAlt ["üíÄ", "‚ö∞Ô∏è", "ü§°", "üìâ"] "MOON PUMP!!!" = false
      from by decide,
    show ((jsSplit "MOON PUMP!!!" ' ').filter
      (fun word => word.length > 2 && word == jsToUpper word)).length = 2 from by decide,
    show hasRun4 "MOON PUMP!!!".data = false from by decide,
    show countChar '!' "MOON PUMP!!!" = 3 from by decide]

lemma calculateSentimentScore_MOON :
    SentimentAnalysisService.calculateSentimentScore "MOON PUMP!!!" [] = 1 := by
  simp only [SentimentAnalysisService.calculateSentimentScore]
  rw [show SentimentAnalysisService.anchorMatches SENTIMENT_ANCHORS_bullish
      (jsToLower "MOON PUMP!!!") =
      [{ word := "moon", weight := 1, matched := true },
       { word := "MOON", weight := 1, matched := true }] from by decide,
    show SentimentAnalysisService.anchorMatches SENTIMENT_ANCHORS_bearish
      (jsToLower "MOON PUMP!!!") = [] from by decide]
  rw [if_pos (by norm_num : ([{ word := "moon", weight := 1, matched := true },
       { word := "MOON", weight := 1, matched := true }] :
         List SentimentAnalysisService.AnchorMatch).length > 0 ∨
       ([] : List SentimentAnalysisService.AnchorMatch).length > 0)]
  norm_num [SentimentAnalysisService.weightSum,
    show strIncludes "MOON PUMP!!!" "!" = true from by decide,
    show jsToUpper "MOON PUMP!!!" = "MOON PUMP!!!" from by decide,
    show (jsSplit "MOON PUMP!!!" '!').length = 4 from by decide,
    show strContainsAnyChar "üíÄ‚ö∞Ô∏èü§°üìâ" "MOON PUMP!!!" = false from by decide,
    show strContainsAnyChar "üöÄüíéüî•üí™" "MOON PUMP!!!" = false from by decide,
    show strIncludes (jsToLower "MOON PUMP!!!") "terrible" = false from by decide,
    show strIncludes (jsToLower "MOON PUMP!!!") "awful" = false from by decide,
    show strIncludes (jsToLower "MOON PUMP!!!") "horrible" = false from by decide,
    show strIncludes (jsToLower "MOON PUMP!!!") "amazing" = false from by decide,
    show strIncludes (jsToLower "MOON PUMP!!!") "incredible" = false from by decide,
    show strIncludes (jsToLower "MOON PUMP!!!") "excellent" = false from by decide,
    show ("MOON PUMP!!!".length) = 12 from rfl]
  rw [abs_of_pos (by norm_num)]
  exact Real.one_le_rpow (by norm_num) (by norm_num)

/-- C5 (counterexample): the default strategy's confidence is not bounded
by 1: for the text `"MOON PUMP!!!"` the lexical score clamps to 1 while
the emphasis multiplier is 5.4 (two ALL-CAPS words ×2.0, three
exclamation marks ×1.8, the combination ×1.5), so the confidence is
5.4 > 1. -/
theorem claim_C5_counterexample :
    1 < (SentimentAnalysisService.defaultStrategyAnalyze "MOON PUMP!!!" []).confidence := by
  unfold SentimentAnalysisService.defaultStrategyAnalyze
  simp only [calculateSentimentScore_MOON, emphasisMultiplier_MOON]
  norm_num [SentimentAnalysisService.calculateConfidence]

/-- C5 (amended): the score produced by the default analysis strategy
always lies in `[-1, 1]` (it is clamped), and its confidence is always
non-negative; but the confidence is NOT bounded by 1 — it is the product
of the unbounded emphasis multiplier (always ≥ 1) with
`min(|score|, 1)`, and exceeds 1 on emphatic inputs. -/
theorem claim_C5_amended (message : String) (embedding : List ℝ) :
    -1 ≤ (SentimentAnalysisService.defaultStrategyAnalyze message embedding).score ∧
    (SentimentAnalysisService.defaultStrategyAnalyze message embedding).score ≤ 1 ∧
    0 ≤ (SentimentAnalysisService.defaultStrategyAnalyze message embedding).confidence := by
  refine ⟨(calculateSentimentScore_mem message embedding).1,
    (calculateSentimentScore_mem message embedding).2, ?_⟩
  unfold SentimentAnalysisService.defaultStrategyAnalyze
  refine mul_nonneg ?_ ?_
  · exact_mod_cast le_trans zero_le_one (one_le_calculateEmphasisMultiplier message)
  · exact le_min (abs_nonneg _) zero_le_one
